import Mathlib

/-!
# TaxiDashboard (script.js): a shallow embedding

The dashboard controller of `script.js` is embedded as state-passing functions
over an explicit page state.  Values that arrive from the analytics API are
JavaScript values as `response.json()` returns them.  The charting library, the
network and the number formatter of the browser are collaborators of the
program: a chart is an instance with an identity, a canvas and a configuration,
a fetch is given by its outcome, and the number renderings are fields of a
`Host`.

Conventions of the model:

* the page markup is present: every `getElementById` and `querySelector` of the
  program finds its element, and `new Chart` and `destroy` do not throw;
* an exception is a completion `thrown` that carries the page as it is at the
  throw; which error it is plays no part in the program, whose `catch` blocks
  do not look at it;
* `await` is sequencing: a run of `init()` is taken from start to end;
* the page records the calls made so far in `trace`, which the program never
  reads;
* a string is a Lean string, so a character outside the Basic Multilingual
  Plane counts once where JavaScript counts two code units.
-/

namespace TaxiDashboard

/-! ## JavaScript values -/

/-- Number of JavaScript, as an exact decimal `mant / 10 ^ scale`.  A number is
falsy exactly when it is zero. -/
structure JNum where
  mant : Int
  scale : Nat
  deriving DecidableEq, Repr

/-- Value of JavaScript as produced by `response.json()`.  The list of an
object holds its own properties in the order `Object.keys` enumerates them. -/
inductive JVal where
  | undefined : JVal
  | null : JVal
  | bool (b : Bool) : JVal
  | num (n : JNum) : JVal
  | str (s : String) : JVal
  | arr (xs : List JVal) : JVal
  | obj (props : List (String × JVal)) : JVal
  deriving Repr

/-- Whole number as a JavaScript number value. -/
def JVal.int (i : Int) : JVal := JVal.num ⟨i, 0⟩

/-- Formatting that the browser supplies: `String(n)` and `n.toLocaleString()`
for a number, and the separator that `Array.prototype.toLocaleString` puts
between elements. -/
structure Host where
  numToString : JNum → String
  numToLocaleString : JNum → String
  listSeparator : String

/-- Either the value of an evaluation or a thrown exception. -/
abbrev Thrown := Unit

/-- The operation `ToBoolean` of JavaScript. -/
def truthy : JVal → Bool
  | .undefined => false
  | .null => false
  | .bool b => b
  | .num n => n.mant != 0
  | .str s => s != ""
  | .arr _ => true
  | .obj _ => true

/-- Test for `undefined` or `null`. -/
def nullish : JVal → Bool
  | .undefined => true
  | .null => true
  | _ => false

/-- First property with the given key among own properties. -/
def lookupProp (key : String) : List (String × JVal) → Option JVal
  | [] => none
  | (k, v) :: rest => if k = key then some v else lookupProp key rest

/-- Own enumerable properties with string keys: those of an object, the indices
of an array, the indices of a string; none for a number or a boolean.  Fails on
`undefined` and `null`. -/
def ownEntries : JVal → Except Thrown (List (String × JVal))
  | .undefined => .error ()
  | .null => .error ()
  | .bool _ => .ok []
  | .num _ => .ok []
  | .str s => .ok (s.toList.enum.map fun p => (toString p.1, JVal.str (String.singleton p.2)))
  | .arr xs => .ok (xs.enum.map fun p => (toString p.1, p.2))
  | .obj props => .ok props

/-- The call `Object.keys(v)`. -/
def objectKeys (v : JVal) : Except Thrown (List String) :=
  (ownEntries v).map fun es => es.map Prod.fst

/-- Property read `v[key]` for the data property names this program reads (the
fixed field names of the API responses and the own keys returned by
`Object.keys`): a `TypeError` on `undefined` and `null`, the own property when
there is one, `undefined` otherwise. -/
def getProp (v : JVal) (key : String) : Except Thrown JVal :=
  (ownEntries v).map fun es => (lookupProp key es).getD JVal.undefined

/-- Test whether an own property of that name exists. -/
def hasOwn (key : String) (props : List (String × JVal)) : Bool :=
  (lookupProp key props).isSome

mutual
/-- The operation `ToString(v)`: an object from JSON has no callable own
`toString`, so one with an own key of that name cannot be converted; any other
object gives `[object Object]`; an array joins its elements with commas. -/
def toStr (h : Host) : JVal → Except Thrown String
  | .undefined => .ok "undefined"
  | .null => .ok "null"
  | .bool b => .ok (if b then "true" else "false")
  | .num n => .ok (h.numToString n)
  | .str s => .ok s
  | .arr xs => joinStr h xs
  | .obj props => if hasOwn "toString" props then .error () else .ok "[object Object]"
/-- The method `Array.prototype.join` with a comma: `undefined` and `null`
elements give the empty string. -/
def joinStr (h : Host) : List JVal → Except Thrown String
  | [] => .ok ""
  | [x] => if nullish x then .ok "" else toStr h x
  | x :: y :: rest => do
      let a ← if nullish x then .ok "" else toStr h x
      let b ← joinStr h (y :: rest)
      .ok (a ++ "," ++ b)
end

mutual
/-- The call `v.toLocaleString()` for a value that is neither `undefined` nor
`null`: the formatter of the browser for a number, the string itself for a
string, `Object.prototype.toLocaleString` (which calls `toString`) for a
boolean and an object, the elements joined by the list separator for an
array. -/
def toLocaleStr (h : Host) : JVal → Except Thrown String
  | .undefined => .error ()
  | .null => .error ()
  | .bool b => .ok (if b then "true" else "false")
  | .num n => .ok (h.numToLocaleString n)
  | .str s => .ok s
  | .arr xs => joinLocaleStr h xs
  | .obj props =>
      if hasOwn "toLocaleString" props then .error ()
      else if hasOwn "toString" props then .error ()
      else .ok "[object Object]"
/-- The method `Array.prototype.toLocaleString`. -/
def joinLocaleStr (h : Host) : List JVal → Except Thrown String
  | [] => .ok ""
  | [x] => if nullish x then .ok "" else toLocaleStr h x
  | x :: y :: rest => do
      let a ← if nullish x then .ok "" else toLocaleStr h x
      let b ← joinLocaleStr h (y :: rest)
      .ok (a ++ h.listSeparator ++ b)
end

/-- The call `xs.map(f)` for a callback that may throw: left to right, stopping at the
first exception. -/
def mapThrowing {α β : Type} (f : α → Except Thrown β) : List α → Except Thrown (List β)
  | [] => .ok []
  | x :: rest =>
      match f x with
      | .error e => .error e
      | .ok y =>
          match mapThrowing f rest with
          | .error e => .error e
          | .ok ys => .ok (y :: ys)

/-! ## Page state -/

/-- Contract-bearing part of a Chart.js configuration: chart type, the labels
of `data.labels` (absent for the scatter chart), label and values of the one
dataset, and the title. -/
structure ChartConfig where
  kind : String
  labels : Option (List String)
  datasetLabel : Option String
  data : JVal
  title : String

/-- Chart instance made by `new Chart(ctx, config)`. -/
structure ChartInstance where
  id : Nat
  canvas : String
  config : ChartConfig

/-- The object `this.charts`, with its four possible entries. -/
structure Charts where
  fareChart : Option ChartInstance
  timeChart : Option ChartInstance
  distanceChart : Option ChartInstance
  scatterChart : Option ChartInstance

/-- Calls observed during a run, in order. -/
inductive Event where
  | initStart
  | fetch (url : String)
  | consoleError (msg : String)
  | displayInsights (arg : JVal)
  | handleError (msg : String)
  | setupEventListeners
  | chartNew (id : Nat) (canvas : String)
  | chartDestroy (id : Nat)

/-- State of the page and of the controller: text of the four summary cards,
markup of the insights panel, children of `.container` (first child first),
number of keydown listeners on the document, `this.charts`, the chart instances
created and not destroyed, the next chart identity, and the calls so far. -/
structure Page where
  totalTrips : String
  avgFare : String
  avgDistance : String
  avgSpeed : String
  insights : String
  container : List String
  keydownListeners : Nat
  charts : Charts
  live : List ChartInstance
  nextChartId : Nat
  trace : List Event

/-- How a call ends: normally with a value, or by throwing; the page state at
that point in both cases. -/
inductive Completion (α : Type) where
  | normal (a : α) (s : Page) : Completion α
  | thrown (s : Page) : Completion α

/-- Page state at the end of a call. -/
def Completion.page {α : Type} : Completion α → Page
  | .normal _ s => s
  | .thrown s => s

/-- Test whether a call ended by throwing. -/
def Completion.threw {α : Type} : Completion α → Bool
  | .normal _ _ => false
  | .thrown _ => true

/-- Computation of the controller: reads and writes the page, may throw. -/
def Act (α : Type) : Type := Page → Completion α

/-- Sequencing of two computations: an exception skips the rest. -/
def Act.bind {α β : Type} (m : Act α) (f : α → Act β) : Act β := fun s =>
  match m s with
  | .normal a s1 => f a s1
  | .thrown s1 => .thrown s1

instance : Monad Act where
  pure a := fun s => .normal a s
  bind := Act.bind

/-- Statement `throw`. -/
def throwAct {α : Type} : Act α := fun s => .thrown s

/-- Block `try ... catch ...`. -/
def tryCatch {α : Type} (body : Act α) (handler : Act α) : Act α := fun s =>
  match body s with
  | .normal a s1 => .normal a s1
  | .thrown s1 => handler s1

/-- Evaluation of an expression that may throw, inside a computation. -/
def liftE {α : Type} : Except Thrown α → Act α
  | .ok a => fun s => .normal a s
  | .error _ => fun s => .thrown s

/-- Update of the page. -/
def modifyPage (f : Page → Page) : Act Unit := fun s => .normal () (f s)

/-- Read of the page. -/
def getPage : Act Page := fun s => .normal s s

/-- Record of a call. -/
def emit (e : Event) : Act Unit := modifyPage fun s => { s with trace := s.trace ++ [e] }

/-! ## Collaborators: charting library and network -/

/-- The call `chart.destroy()`: the instance is no longer live. -/
def destroyChart (c : ChartInstance) : Act Unit := do
  emit (.chartDestroy c.id)
  modifyPage fun s => { s with live := s.live.filter fun d => d.id != c.id }

/-- The statement `if (entry) entry.destroy()` on an entry of `this.charts`. -/
def destroyIfPresent (entry : Option ChartInstance) : Act Unit :=
  match entry with
  | some c => destroyChart c
  | none => pure ()

/-- The expression `new Chart(ctx, config)` on the canvas with the given identifier: a fresh
live instance. -/
def newChart (canvas : String) (cfg : ChartConfig) : Act ChartInstance := do
  let s ← getPage
  let inst : ChartInstance := { id := s.nextChartId, canvas := canvas, config := cfg }
  emit (.chartNew inst.id canvas)
  modifyPage fun s => { s with live := s.live ++ [inst], nextChartId := s.nextChartId + 1 }
  pure inst

/-- What a call of `fetch` meets: a network failure (the promise rejects), or a
response with a status whose body either parses to a value or is not JSON. -/
inductive FetchOutcome where
  | networkError : FetchOutcome
  | response (status : Nat) (json : Option JVal) : FetchOutcome

/-- The expression `await fetch(url)` followed by `await response.json()`. -/
def fetchJson (url : String) (out : FetchOutcome) : Act JVal := do
  emit (.fetch url)
  match out with
  | .networkError => throwAct
  | .response _ none => throwAct
  | .response _ (some v) => pure v

/-- The field `this.apiBase`. -/
def apiBase : String := "http://localhost:5000/api"

/-! ## The controller -/

/-- Method `updateSummaryCards(summary)`. -/
def updateSummaryCards (h : Host) (summary : JVal) : Act Unit := do
  let t ← liftE (getProp summary "total_trips")
  let r ← liftE (if nullish t then .ok JVal.undefined else (toLocaleStr h t).map JVal.str)
  let text ← liftE (toStr h (if truthy r then r else JVal.str "0"))
  modifyPage fun s => { s with totalTrips := text }
  let f ← liftE (getProp summary "average_fare")
  let fs ← liftE (toStr h (if truthy f then f else JVal.str "0.00"))
  modifyPage fun s => { s with avgFare := "$" ++ fs }
  let d ← liftE (getProp summary "average_distance")
  let ds ← liftE (toStr h (if truthy d then d else JVal.str "0.00"))
  modifyPage fun s => { s with avgDistance := ds ++ " mi" }
  let v ← liftE (getProp summary "average_speed")
  let vs ← liftE (toStr h (if truthy v then v else JVal.str "0.00"))
  modifyPage fun s => { s with avgSpeed := vs ++ " mph" }

/-- Method `createFareChart(topFares)`. -/
def createFareChart (topFares : JVal) : Act Unit := do
  let s ← getPage
  destroyIfPresent s.charts.fareChart
  let inst ← newChart "fareChart"
    { kind := "bar"
      labels := some ["1st Highest", "2nd", "3rd", "4th", "5th"]
      datasetLabel := some "Fare Amount ($)"
      data := topFares
      title := "Top 5 Highest Fares (Custom Algorithm)" }
  modifyPage fun s => { s with charts := { s.charts with fareChart := some inst } }

/-- Method `createTimeAnalysisChart(timeData)`. -/
def createTimeAnalysisChart (timeData : JVal) : Act Unit := do
  let categories ← liftE (objectKeys timeData)
  let averages ← liftE (mapThrowing
    (fun cat => (getProp timeData cat).bind fun e => getProp e "average_fare") categories)
  let s ← getPage
  destroyIfPresent s.charts.timeChart
  let inst ← newChart "timeChart"
    { kind := "line"
      labels := some categories
      datasetLabel := some "Average Fare ($)"
      data := JVal.arr averages
      title := "Fare Patterns by Time of Day" }
  modifyPage fun s => { s with charts := { s.charts with timeChart := some inst } }

/-- Method `createDistanceChart(distanceData)`. -/
def createDistanceChart (distanceData : JVal) : Act Unit := do
  let labels ← liftE (objectKeys distanceData)
  let counts ← liftE (mapThrowing
    (fun label => (getProp distanceData label).bind fun e => getProp e "count") labels)
  let s ← getPage
  destroyIfPresent s.charts.distanceChart
  let inst ← newChart "distanceChart"
    { kind := "doughnut"
      labels := some labels
      datasetLabel := none
      data := JVal.arr counts
      title := "Trip Distribution by Distance" }
  modifyPage fun s => { s with charts := { s.charts with distanceChart := some inst } }

/-- The call `speedFareData.map(...)` whose callback builds a point with `x` the
`speed` and `y` the `fare` of an item: only an array has a `map` method. -/
def scatterPoints : JVal → Except Thrown (List JVal)
  | .arr items => mapThrowing
      (fun item => (getProp item "speed").bind fun x => (getProp item "fare").bind fun y =>
        .ok (JVal.obj [("x", x), ("y", y)])) items
  | _ => .error ()

/-- Method `createScatterChart(speedFareData)`: the previous chart is destroyed
before the points of the new one are computed. -/
def createScatterChart (speedFareData : JVal) : Act Unit := do
  let s ← getPage
  destroyIfPresent s.charts.scatterChart
  let points ← liftE (scatterPoints speedFareData)
  let inst ← newChart "scatterChart"
    { kind := "scatter"
      labels := none
      datasetLabel := some "Speed vs Fare"
      data := JVal.arr points
      title := "Speed vs Fare Correlation" }
  modifyPage fun s => { s with charts := { s.charts with scatterChart := some inst } }

/-- Markup of the insights panel for three titles and three descriptions, with
the fixed finding line of each slot. -/
def insightsMarkup (t1 d1 t2 d2 t3 d3 : String) : String :=
  "\n            <div class=\"insight-item\">\n                <h4>" ++ t1 ++
  "</h4>\n                <p>" ++ d1 ++
  "</p>\n                <p><strong>Finding:</strong> Moderate positive correlation between speed and fare amounts</p>\n            </div>\n            <div class=\"insight-item\">\n                <h4>" ++ t2 ++
  "</h4>\n                <p>" ++ d2 ++
  "</p>\n                <p><strong>Finding:</strong> Medium distance trips (1-3 miles) are most common</p>\n            </div>\n            <div class=\"insight-item\">\n                <h4>" ++ t3 ++
  "</h4>\n                <p>" ++ d3 ++
  "</p>\n                <p><strong>Finding:</strong> Evening rush hours show highest average fares</p>\n            </div>\n        "

/-- Substitution of `obj.slot.field` into a template literal. -/
def slotText (h : Host) (insightsData : JVal) (slot field : String) : Except Thrown String :=
  (getProp insightsData slot).bind fun i => (getProp i field).bind fun v => toStr h v

/-- Method `displayInsights(insightsData)`. -/
def displayInsights (h : Host) (insightsData : JVal) : Act Unit := do
  emit (.displayInsights insightsData)
  let t1 ← liftE (slotText h insightsData "insight_1" "title")
  let d1 ← liftE (slotText h insightsData "insight_1" "description")
  let t2 ← liftE (slotText h insightsData "insight_2" "title")
  let d2 ← liftE (slotText h insightsData "insight_2" "description")
  let t3 ← liftE (slotText h insightsData "insight_3" "title")
  let d3 ← liftE (slotText h insightsData "insight_3" "description")
  modifyPage fun s => { s with insights := insightsMarkup t1 d1 t2 d2 t3 d3 }

/-- Method `getFallbackInsights()`. -/
def getFallbackInsights : JVal :=
  .obj
    [ ("insight_1", .obj
        [ ("title", .str "Speed vs Fare Relationship"),
          ("description", .str "Analysis of how trip speed correlates with fare amounts") ]),
      ("insight_2", .obj
        [ ("title", .str "Distance Category Analysis"),
          ("description", .str "How trip distance categories affect passenger counts and fares") ]),
      ("insight_3", .obj
        [ ("title", .str "Time-based Pricing Patterns"),
          ("description", .str "Fare variations across different times of day") ]) ]

/-- Markup of the error banner. -/
def errorMarkup (message : String) : String :=
  "\n            <h4>⚠️ Connection Error</h4>\n            <p>" ++ message ++
  "</p>\n            <p>Make sure the Python backend is running: <code>python backend.py</code></p>\n        "

/-- Method `handleError(message)`: a new first child of `.container`. -/
def handleError (message : String) : Act Unit := do
  emit (.handleError message)
  modifyPage fun s => { s with container := errorMarkup message :: s.container }

/-- Method `setupEventListeners()`: one more keydown listener on the document. -/
def setupEventListeners : Act Unit := do
  emit .setupEventListeners
  modifyPage fun s => { s with keydownListeners := s.keydownListeners + 1 }

/-- The `try` block of `loadSummaryData()`, given the outcome of its fetch. -/
def loadSummaryDataTry (h : Host) (out : FetchOutcome) : Act Unit := do
  let data ← fetchJson (apiBase ++ "/analytics/summary") out
  let summary ← liftE (getProp data "summary")
  updateSummaryCards h summary
  let topFares ← liftE (getProp data "top_fares")
  createFareChart topFares
  let timeAnalysis ← liftE (getProp data "time_analysis")
  createTimeAnalysisChart timeAnalysis

/-- Method `loadSummaryData()`, given the outcome of its fetch: the `catch`
block logs and throws the error again. -/
def loadSummaryData (h : Host) (out : FetchOutcome) : Act Unit :=
  tryCatch (loadSummaryDataTry h out)
    (do
      emit (.consoleError "Error loading summary data:")
      throwAct)

/-- Method `loadInsights()`, given the outcome of its fetch. -/
def loadInsights (h : Host) (out : FetchOutcome) : Act Unit :=
  tryCatch
    (do
      let data ← fetchJson (apiBase ++ "/analytics/insights") out
      displayInsights h data
      let i2 ← liftE (getProp data "insight_2")
      let distanceData ← liftE (getProp i2 "data")
      createDistanceChart distanceData
      let i1 ← liftE (getProp data "insight_1")
      let speedFareData ← liftE (getProp i1 "data")
      createScatterChart speedFareData)
    (do
      emit (.consoleError "Error loading insights:")
      displayInsights h getFallbackInsights)

/-- Outcomes of the two fetches of one run of `init()`. -/
structure Net where
  summary : FetchOutcome
  insights : FetchOutcome

/-- The message `init()` passes to `handleError`. -/
def loadFailedMessage : String :=
  "Failed to load dashboard data. Make sure the backend is running on port 5000."

/-- Method `init()`. -/
def init (h : Host) (net : Net) : Act Unit := do
  emit .initStart
  tryCatch
    (do
      loadSummaryData h net.summary
      loadInsights h net.insights
      setupEventListeners)
    (handleError loadFailedMessage)

/-- The constructor, which the bootstrap listener calls on `DOMContentLoaded`:
an empty `this.charts`, then `init()`. -/
def construct (h : Host) (net : Net) : Act Unit := do
  modifyPage fun s => { s with charts := ⟨none, none, none, none⟩ }
  init h net

/-- Dispatch of one keydown event: every listener registered at that moment
runs; each one whose test `e.key === 'r' && e.ctrlKey` holds starts a run of
`init()`.  The runs are taken one after the other, run `i` meeting the fetch
outcomes `nets i`. -/
def keydown (h : Host) (key : String) (ctrlKey : Bool) (nets : Nat → Net) (s : Page) : Page :=
  (List.range s.keydownListeners).foldl
    (fun acc i => if key = "r" ∧ ctrlKey = true then (init h (nets i) acc).page else acc) s

/-! ## A concrete host and a concrete page, for evaluation -/

/-- Commas between groups of three, on digits given last digit first. -/
def groupThousands : List Char → List Char
  | a :: b :: c :: d :: rest => a :: b :: c :: ',' :: groupThousands (d :: rest)
  | xs => xs

/-- Removal of the zeros at the head of a list of digits. -/
def dropZeros : List Char → List Char
  | '0' :: rest => dropZeros rest
  | xs => xs

/-- Decimal notation of a number, the integer part grouped by thousands on
request, the fraction without trailing zeros. -/
def decimalString (grouped : Bool) (n : JNum) : String :=
  let a := n.mant.natAbs
  let ip := a / 10 ^ n.scale
  let fp := a % 10 ^ n.scale
  let ipDigits := (toString ip).toList
  let ipText := if grouped then (groupThousands ipDigits.reverse).reverse else ipDigits
  let fpDigits := (toString fp).toList
  let fpPadded := List.replicate (n.scale - fpDigits.length) '0' ++ fpDigits
  let fpText := (dropZeros fpPadded.reverse).reverse
  String.mk ((if n.mant < 0 then ['-'] else []) ++ ipText ++
    (if fpText.isEmpty then [] else '.' :: fpText))

/-- A host that writes numbers in decimal notation and groups by thousands in
`toLocaleString`, as a browser does for integers in the `en-US` locale. -/
def sampleHost : Host :=
  { numToString := decimalString false
    numToLocaleString := decimalString true
    listSeparator := "," }

/-- A page on which nothing has been rendered and no listener is registered. -/
def blankPage : Page :=
  { totalTrips := "", avgFare := "", avgDistance := "", avgSpeed := ""
    insights := "", container := [], keydownListeners := 0
    charts := ⟨none, none, none, none⟩, live := [], nextChartId := 0, trace := [] }

/-! ## Frames: what a computation may change -/

/-- Preorder on pages, used to bound what a computation may change. -/
structure PageRel where
  rel : Page → Page → Prop
  refl : ∀ s, rel s s
  trans : ∀ a b c, rel a b → rel b c → rel a c

/-- Every call of the computation ends in a page related to the one it started
from, whether it throws or not. -/
def Preserves {α : Type} (R : PageRel) (m : Act α) : Prop := ∀ s, R.rel s (m s).page

/-- The page keeps its banner list and its listeners, and its trace grows by
events of the allowed kinds only. -/
def quietRel (allowed : Event → Bool) : PageRel where
  rel s t := t.container = s.container ∧ t.keydownListeners = s.keydownListeners ∧
    ∃ evs, t.trace = s.trace ++ evs ∧ ∀ e ∈ evs, allowed e = true
  refl s := ⟨rfl, rfl, [], by simp, by simp⟩
  trans a b c := by
    rintro ⟨h1, h2, e1, h3, h4⟩ ⟨h5, h6, e2, h7, h8⟩
    refine ⟨h5.trans h1, h6.trans h2, e1 ++ e2, by rw [h7, h3, List.append_assoc], ?_⟩
    intro e he
    rcases List.mem_append.mp he with h | h
    · exact h4 e h
    · exact h8 e h

/-- Events of the charting library. -/
def Event.isChart : Event → Bool
  | .chartNew _ _ => true
  | .chartDestroy _ => true
  | _ => false

/-- Events a run of `loadSummaryData` may produce. -/
def Event.isSummary : Event → Bool
  | .fetch url => url == apiBase ++ "/analytics/summary"
  | .consoleError _ => true
  | .chartNew _ _ => true
  | .chartDestroy _ => true
  | _ => false

/-- Events a run of `loadInsights` may produce. -/
def Event.isInsights : Event → Bool
  | .fetch url => url == apiBase ++ "/analytics/insights"
  | .consoleError _ => true
  | .displayInsights _ => true
  | .chartNew _ _ => true
  | .chartDestroy _ => true
  | _ => false

/-- Value a call ends with, or nothing when it throws. -/
def Completion.outcome {α : Type} : Completion α → Option α
  | .normal a _ => some a
  | .thrown _ => none

/-- Whether the computation throws, and what it returns, does not depend on the
page it starts from. -/
def Oblivious {α : Type} (m : Act α) : Prop := ∀ s t, (m s).outcome = (m t).outcome

/-- Whether `loadSummaryData` throws on a fetch outcome; the page it starts from
has no influence on that (`threw_loadSummaryData`). -/
def summaryFails (h : Host) (out : FetchOutcome) : Bool :=
  (loadSummaryData h out blankPage).threw

/-- Failure of the fetch itself or of parsing its body. -/
def FetchOutcome.failed : FetchOutcome → Bool
  | .networkError => true
  | .response _ none => true
  | .response _ (some _) => false

/-- Fetches of the insights resource. -/
def Event.isInsightsFetch : Event → Bool
  | .fetch url => url == apiBase ++ "/analytics/insights"
  | _ => false

/-- Calls of `setupEventListeners`. -/
def Event.isSetup : Event → Bool
  | .setupEventListeners => true
  | _ => false

/-- Calls of `handleError`. -/
def Event.isHandleError : Event → Bool
  | .handleError _ => true
  | _ => false

/-- Starts of a run of `init()`. -/
def Event.isInitStart : Event → Bool
  | .initStart => true
  | _ => false

/-- Arguments of the calls of `displayInsights`, in order. -/
def displayInsightsArgs (trace : List Event) : List JVal :=
  trace.filterMap fun e =>
    match e with
    | .displayInsights arg => some arg
    | _ => none

/-- Markup of the insights panel for the fallback insights. -/
def fallbackPanel : String :=
  insightsMarkup "Speed vs Fare Relationship"
    "Analysis of how trip speed correlates with fare amounts"
    "Distance Category Analysis"
    "How trip distance categories affect passenger counts and fares"
    "Time-based Pricing Patterns"
    "Fare variations across different times of day"

/-- Body of the summary response that is not JSON, or whose parsed value has no
`summary` object to read from (the value is `null`, or `summary` is absent or
`null`). -/
def noSummaryObject : Option JVal → Bool
  | none => true
  | some d =>
      match getProp d "summary" with
      | .error _ => true
      | .ok v => nullish v

/-- A summary response as the data model describes it. -/
def sampleSummary : JVal :=
  .obj
    [ ("summary", .obj
        [ ("total_trips", .int 1234567), ("average_fare", .num ⟨1250, 2⟩),
          ("average_distance", .num ⟨31, 1⟩), ("average_speed", .num ⟨114, 1⟩) ]),
      ("top_fares", .arr [.num ⟨455, 1⟩, .int 40, .num ⟨382, 1⟩, .int 35, .num ⟨301, 1⟩]),
      ("time_analysis", .obj
        [ ("Morning", .obj [("average_fare", .num ⟨125, 1⟩)]),
          ("Evening", .obj [("average_fare", .num ⟨158, 1⟩)]) ]) ]

/-- Value that `response.json()` yields, when the fetch and the parsing both
succeed. -/
def FetchOutcome.parsed : FetchOutcome → Option JVal
  | .networkError => none
  | .response _ body => body

/-- The time entry of `this.charts` is kept. -/
def timeEntryRel : PageRel where
  rel s t := t.charts.timeChart = s.charts.timeChart
  refl _ := rfl
  trans _ _ _ h1 h2 := h2.trans h1

/-- A summary response without `time_analysis`. -/
def partialSummary : JVal :=
  .obj [("summary", .obj [("total_trips", .int 5)]), ("top_fares", .arr [.int 1])]

/-- A summary field as the data model has it: absent, `null`, or a number. -/
def numericOrMissing : Option JVal → Bool
  | none => true
  | some .null => true
  | some (.num _) => true
  | some _ => false

/-- Text expected on the trips card for a field that is absent, `null` or a
number: the locale rendering of the number, `0` when the field is absent or
`null`. -/
def cardTrips (h : Host) : Option JVal → String
  | some (.num n) => h.numToLocaleString n
  | _ => "0"

/-- Amount expected on the three other cards for a field that is absent, `null`
or a number: the number as a string when it is not zero, `0.00` when the field
is absent, `null` or zero. -/
def cardAmount (h : Host) : Option JVal → String
  | some (.num n) => if n.mant = 0 then "0.00" else h.numToString n
  | _ => "0.00"

/-- The two-category mapping of the distance scenario. -/
def sampleDistanceData : List (String × JVal) :=
  [ ("Short (0-1mi)", .obj [("count", .int 120)]),
    ("Medium (1-3mi)", .obj [("count", .int 300)]) ]

/-- The value `obj.slot.field` read by `displayInsights`. -/
def slotValue (insightsData : JVal) (slot field : String) : Except Thrown JVal :=
  (getProp insightsData slot).bind fun i => getProp i field

/-- An insights response that carries the titles and descriptions of the
fallback insights together with data fields. -/
def sampleInsights : JVal :=
  .obj
    [ ("insight_1", .obj
        [ ("title", .str "Speed vs Fare Relationship"),
          ("description", .str "Analysis of how trip speed correlates with fare amounts"),
          ("data", .arr [.obj [("speed", .int 12), ("fare", .num ⟨95, 1⟩)]]) ]),
      ("insight_2", .obj
        [ ("title", .str "Distance Category Analysis"),
          ("description", .str "How trip distance categories affect passenger counts and fares"),
          ("data", .obj sampleDistanceData) ]),
      ("insight_3", .obj
        [ ("title", .str "Time-based Pricing Patterns"),
          ("description", .str "Fare variations across different times of day") ]) ]

/-! ## Chart surfaces -/

/-- The four chart surfaces. -/
inductive Surface where
  | fare
  | time
  | distance
  | scatter
  deriving DecidableEq

/-- Identifier of the canvas of a surface. -/
def Surface.canvas : Surface → String
  | .fare => "fareChart"
  | .time => "timeChart"
  | .distance => "distanceChart"
  | .scatter => "scatterChart"

/-- Entry of `this.charts` for a surface. -/
def Charts.entry (c : Charts) : Surface → Option ChartInstance
  | .fare => c.fareChart
  | .time => c.timeChart
  | .distance => c.distanceChart
  | .scatter => c.scatterChart

/-- Assignment to the entry of `this.charts` for a surface. -/
def Charts.store (c : Charts) (surface : Surface) (inst : ChartInstance) : Charts :=
  match surface with
  | .fare => { c with fareChart := some inst }
  | .time => { c with timeChart := some inst }
  | .distance => { c with distanceChart := some inst }
  | .scatter => { c with scatterChart := some inst }

/-- Chart instances created and not destroyed on the canvas of a surface. -/
def liveOn (s : Page) (surface : Surface) : List ChartInstance :=
  s.live.filter fun c => c.canvas == surface.canvas

/-- A call of one of the four chart methods, with its argument. -/
inductive ChartCall where
  | fare (topFares : JVal)
  | time (timeData : JVal)
  | distance (distanceData : JVal)
  | scatter (speedFareData : JVal)

/-- Surface a chart method renders. -/
def ChartCall.surface : ChartCall → Surface
  | .fare _ => .fare
  | .time _ => .time
  | .distance _ => .distance
  | .scatter _ => .scatter

/-- The method call itself. -/
def ChartCall.run : ChartCall → Act Unit
  | .fare v => createFareChart v
  | .time v => createTimeAnalysisChart v
  | .distance v => createDistanceChart v
  | .scatter v => createScatterChart v

/-- A sequence of calls of the chart methods, one after the other; a call that
throws leaves the page as it is at the throw and the next call goes on from
there. -/
def runCalls : List ChartCall → Page → Page
  | [], s => s
  | c :: rest, s => runCalls rest (c.run s).page

/-- Live instances that remain once the instance of an entry, if any, is
destroyed. -/
def liveAfterDestroy (o : Option ChartInstance) (live : List ChartInstance) :
    List ChartInstance :=
  match o with
  | some c => live.filter fun d => d.id != c.id
  | none => live

/-- Invariant of the chart state: live instances have distinct identities below
the counter, and each one is the entry of `this.charts` for its canvas. -/
def ChartsInv (s : Page) : Prop :=
  (∀ c ∈ s.live, c.id < s.nextChartId) ∧
  s.live.Pairwise (fun a b => a.id ≠ b.id) ∧
  (∀ c ∈ s.live, ∃ surface : Surface, c.canvas = surface.canvas ∧ s.charts.entry surface = some c)

/-- How a call of a chart method on a surface ends: a throw that leaves charts
and counter alone and keeps or shrinks the live instances, or a normal end that
destroys the instance of the entry, creates a fresh one on the canvas and stores
it. -/
def StepShape (surface : Surface) (s : Page) (r : Completion Unit) : Prop :=
  (r.threw = true ∧ r.page.charts = s.charts ∧ r.page.nextChartId = s.nextChartId ∧
    (r.page.live = s.live ∨ r.page.live = liveAfterDestroy (s.charts.entry surface) s.live)) ∨
  (r.threw = false ∧ ∃ cfg : ChartConfig,
    r.page.nextChartId = s.nextChartId + 1 ∧
    r.page.live = liveAfterDestroy (s.charts.entry surface) s.live
      ++ [⟨s.nextChartId, surface.canvas, cfg⟩] ∧
    r.page.charts = s.charts.store surface ⟨s.nextChartId, surface.canvas, cfg⟩)

/-! ## Key presses -/

/-- The page after `k` presses of control+r, press `k` (counted from 0) meeting
the fetch outcomes `nets k`; each press is over, with the runs it started,
before the next one. -/
def pressesCtrlR (h : Host) (nets : Nat → Nat → Net) : Nat → Page → Page
  | 0, s => s
  | k + 1, s => keydown h "r" true (nets k) (pressesCtrlR h nets k s)

/-- Number of runs of `init()` started so far. -/
def initRuns (s : Page) : Nat := s.trace.countP Event.isInitStart

/-- Test that a value has own entries and that none of them is `undefined` or
`null`: what `Object.keys` followed by the read of a field of each entry
needs. -/
def entriesPresent (v : JVal) : Bool :=
  match ownEntries v with
  | .error _ => false
  | .ok es => es.all fun e => !nullish e.2

/-- Arguments that a chart method can read: any value for the fare chart, a
value with entries other than `undefined` and `null` for the time and distance
charts, an array of items other than `undefined` and `null` for the scatter
chart. -/
def ChartCall.renders : ChartCall → Bool
  | .fare _ => true
  | .time v => entriesPresent v
  | .distance v => entriesPresent v
  | .scatter (.arr items) => items.all fun i => !nullish i
  | .scatter _ => false

/-- Points of the speed and fare scenario. -/
def samplePoints : JVal :=
  .arr [.obj [("speed", .int 12), ("fare", .num ⟨95, 1⟩)],
    .obj [("speed", .int 20), ("fare", .int 14)]]

/-- Time categories with their average fare. -/
def sampleTimeData : JVal :=
  .obj [("Morning", .obj [("average_fare", .num ⟨125, 1⟩)]),
    ("Evening", .obj [("average_fare", .num ⟨158, 1⟩)])]

/-! ## Reasoning about computations -/

@[simp] theorem run_pure {α : Type} (a : α) (s : Page) : (pure a : Act α) s = .normal a s := rfl

@[simp] theorem run_bind {α β : Type} (m : Act α) (f : α → Act β) (s : Page) :
    (m >>= f) s = match m s with
      | .normal a s1 => f a s1
      | .thrown s1 => .thrown s1 := rfl

@[simp] theorem run_throwAct {α : Type} (s : Page) : (throwAct : Act α) s = .thrown s := rfl

@[simp] theorem run_tryCatch {α : Type} (body handler : Act α) (s : Page) :
    tryCatch body handler s = match body s with
      | .normal a s1 => .normal a s1
      | .thrown s1 => handler s1 := rfl

@[simp] theorem run_liftE_ok {α : Type} (a : α) (s : Page) :
    liftE (Except.ok a : Except Thrown α) s = .normal a s := rfl

@[simp] theorem run_liftE_error {α : Type} (e : Thrown) (s : Page) :
    liftE (Except.error e : Except Thrown α) s = .thrown s := rfl

@[simp] theorem run_modifyPage (f : Page → Page) (s : Page) :
    modifyPage f s = .normal () (f s) := rfl

@[simp] theorem run_getPage (s : Page) : getPage s = .normal s s := rfl

@[simp] theorem run_emit (e : Event) (s : Page) :
    emit e s = .normal () { s with trace := s.trace ++ [e] } := rfl

theorem preserves_pure {α : Type} (R : PageRel) (a : α) : Preserves R (pure a : Act α) :=
  fun s => R.refl s

theorem preserves_throwAct {α : Type} (R : PageRel) : Preserves R (throwAct : Act α) :=
  fun s => R.refl s

theorem preserves_getPage (R : PageRel) : Preserves R getPage := fun s => R.refl s

theorem preserves_liftE {α : Type} (R : PageRel) (e : Except Thrown α) :
    Preserves R (liftE e) := by
  intro s
  cases e <;> exact R.refl s

theorem preserves_modifyPage (R : PageRel) (f : Page → Page) (hf : ∀ s, R.rel s (f s)) :
    Preserves R (modifyPage f) := fun s => hf s

theorem preserves_bind {α β : Type} (R : PageRel) (m : Act α) (f : α → Act β)
    (hm : Preserves R m) (hf : ∀ a, Preserves R (f a)) : Preserves R (m >>= f) := by
  intro s
  have h1 := hm s
  simp only [run_bind]
  cases hms : m s with
  | normal a s1 =>
      rw [hms] at h1
      exact R.trans _ _ _ h1 (hf a s1)
  | thrown s1 =>
      rw [hms] at h1
      exact h1

theorem preserves_tryCatch {α : Type} (R : PageRel) (body handler : Act α)
    (hb : Preserves R body) (hh : Preserves R handler) : Preserves R (tryCatch body handler) := by
  intro s
  have h1 := hb s
  simp only [run_tryCatch]
  cases hbs : body s with
  | normal a s1 =>
      rw [hbs] at h1
      exact h1
  | thrown s1 =>
      rw [hbs] at h1
      exact R.trans _ _ _ h1 (hh s1)

theorem quiet_emit (allowed : Event → Bool) (e : Event) (he : allowed e = true) :
    Preserves (quietRel allowed) (emit e) := by
  intro s
  refine ⟨rfl, rfl, [e], rfl, ?_⟩
  intro x hx
  simp only [List.mem_singleton] at hx
  rw [hx]; exact he

theorem quiet_destroyChart (allowed : Event → Bool) (hc : ∀ e, e.isChart = true → allowed e = true)
    (c : ChartInstance) : Preserves (quietRel allowed) (destroyChart c) := by
  unfold destroyChart
  refine preserves_bind _ _ _ (quiet_emit _ _ (hc _ rfl)) fun _ => ?_
  exact preserves_modifyPage _ _ fun s => ⟨rfl, rfl, [], by simp, by simp⟩

theorem quiet_newChart (allowed : Event → Bool) (hc : ∀ e, e.isChart = true → allowed e = true)
    (canvas : String) (cfg : ChartConfig) : Preserves (quietRel allowed) (newChart canvas cfg) := by
  unfold newChart
  refine preserves_bind _ _ _ (preserves_getPage _) fun s => ?_
  refine preserves_bind _ _ _ (quiet_emit _ _ (hc _ rfl)) fun _ => ?_
  refine preserves_bind _ _ _ ?_ fun _ => preserves_pure _ _
  exact preserves_modifyPage _ _ fun s => ⟨rfl, rfl, [], by simp, by simp⟩

theorem quiet_destroyIfPresent (allowed : Event → Bool)
    (hc : ∀ e, e.isChart = true → allowed e = true) (o : Option ChartInstance) :
    Preserves (quietRel allowed) (destroyIfPresent o) := by
  unfold destroyIfPresent
  cases o with
  | none => exact preserves_pure _ _
  | some c => exact quiet_destroyChart allowed hc c

theorem quiet_createFareChart (allowed : Event → Bool)
    (hc : ∀ e, e.isChart = true → allowed e = true) (v : JVal) :
    Preserves (quietRel allowed) (createFareChart v) := by
  unfold createFareChart
  refine preserves_bind _ _ _ (preserves_getPage _) fun s => ?_
  refine preserves_bind _ _ _ (quiet_destroyIfPresent allowed hc _) fun _ => ?_
  refine preserves_bind _ _ _ (quiet_newChart allowed hc _ _) fun _ => ?_
  exact preserves_modifyPage _ _ fun s => ⟨rfl, rfl, [], by simp, by simp⟩

theorem quiet_createTimeAnalysisChart (allowed : Event → Bool)
    (hc : ∀ e, e.isChart = true → allowed e = true) (v : JVal) :
    Preserves (quietRel allowed) (createTimeAnalysisChart v) := by
  unfold createTimeAnalysisChart
  refine preserves_bind _ _ _ (preserves_liftE _ _) fun _ => ?_
  refine preserves_bind _ _ _ (preserves_liftE _ _) fun _ => ?_
  refine preserves_bind _ _ _ (preserves_getPage _) fun s => ?_
  refine preserves_bind _ _ _ (quiet_destroyIfPresent allowed hc _) fun _ => ?_
  refine preserves_bind _ _ _ (quiet_newChart allowed hc _ _) fun _ => ?_
  exact preserves_modifyPage _ _ fun s => ⟨rfl, rfl, [], by simp, by simp⟩

theorem quiet_createDistanceChart (allowed : Event → Bool)
    (hc : ∀ e, e.isChart = true → allowed e = true) (v : JVal) :
    Preserves (quietRel allowed) (createDistanceChart v) := by
  unfold createDistanceChart
  refine preserves_bind _ _ _ (preserves_liftE _ _) fun _ => ?_
  refine preserves_bind _ _ _ (preserves_liftE _ _) fun _ => ?_
  refine preserves_bind _ _ _ (preserves_getPage _) fun s => ?_
  refine preserves_bind _ _ _ (quiet_destroyIfPresent allowed hc _) fun _ => ?_
  refine preserves_bind _ _ _ (quiet_newChart allowed hc _ _) fun _ => ?_
  exact preserves_modifyPage _ _ fun s => ⟨rfl, rfl, [], by simp, by simp⟩

theorem quiet_createScatterChart (allowed : Event → Bool)
    (hc : ∀ e, e.isChart = true → allowed e = true) (v : JVal) :
    Preserves (quietRel allowed) (createScatterChart v) := by
  unfold createScatterChart
  refine preserves_bind _ _ _ (preserves_getPage _) fun s => ?_
  refine preserves_bind _ _ _ (quiet_destroyIfPresent allowed hc _) fun _ => ?_
  refine preserves_bind _ _ _ (preserves_liftE _ _) fun _ => ?_
  refine preserves_bind _ _ _ (quiet_newChart allowed hc _ _) fun _ => ?_
  exact preserves_modifyPage _ _ fun s => ⟨rfl, rfl, [], by simp, by simp⟩

theorem quiet_updateSummaryCards (allowed : Event → Bool) (h : Host) (v : JVal) :
    Preserves (quietRel allowed) (updateSummaryCards h v) := by
  unfold updateSummaryCards
  have hm : ∀ f : Page → Page, (∀ s, (f s).container = s.container ∧
      (f s).keydownListeners = s.keydownListeners ∧ (f s).trace = s.trace) →
      Preserves (quietRel allowed) (modifyPage f) := by
    intro f hf
    refine preserves_modifyPage _ _ fun s => ⟨(hf s).1, (hf s).2.1, [], ?_, by simp⟩
    rw [(hf s).2.2]; simp
  refine preserves_bind _ _ _ (preserves_liftE _ _) fun _ => ?_
  refine preserves_bind _ _ _ (preserves_liftE _ _) fun _ => ?_
  refine preserves_bind _ _ _ (preserves_liftE _ _) fun _ => ?_
  refine preserves_bind _ _ _ (hm _ fun s => ⟨rfl, rfl, rfl⟩) fun _ => ?_
  refine preserves_bind _ _ _ (preserves_liftE _ _) fun _ => ?_
  refine preserves_bind _ _ _ (preserves_liftE _ _) fun _ => ?_
  refine preserves_bind _ _ _ (hm _ fun s => ⟨rfl, rfl, rfl⟩) fun _ => ?_
  refine preserves_bind _ _ _ (preserves_liftE _ _) fun _ => ?_
  refine preserves_bind _ _ _ (preserves_liftE _ _) fun _ => ?_
  refine preserves_bind _ _ _ (hm _ fun s => ⟨rfl, rfl, rfl⟩) fun _ => ?_
  refine preserves_bind _ _ _ (preserves_liftE _ _) fun _ => ?_
  refine preserves_bind _ _ _ (preserves_liftE _ _) fun _ => ?_
  exact hm _ fun s => ⟨rfl, rfl, rfl⟩

theorem quiet_fetchJson (allowed : Event → Bool) (url : String) (out : FetchOutcome)
    (hf : allowed (.fetch url) = true) : Preserves (quietRel allowed) (fetchJson url out) := by
  unfold fetchJson
  refine preserves_bind _ _ _ (quiet_emit _ _ hf) fun _ => ?_
  cases out with
  | networkError => exact preserves_throwAct _
  | response st body =>
      cases body with
      | none => exact preserves_throwAct _
      | some v => exact preserves_pure _ _

theorem isSummary_of_isChart (e : Event) (h : e.isChart = true) : e.isSummary = true := by
  cases e <;> simp_all [Event.isChart, Event.isSummary]

theorem isInsights_of_isChart (e : Event) (h : e.isChart = true) : e.isInsights = true := by
  cases e <;> simp_all [Event.isChart, Event.isInsights]

theorem quiet_loadSummaryData (h : Host) (out : FetchOutcome) :
    Preserves (quietRel Event.isSummary) (loadSummaryData h out) := by
  unfold loadSummaryData loadSummaryDataTry
  refine preserves_tryCatch _ _ _ ?_ ?_
  · refine preserves_bind _ _ _ (quiet_fetchJson _ _ _ (by simp [Event.isSummary])) fun _ => ?_
    refine preserves_bind _ _ _ (preserves_liftE _ _) fun _ => ?_
    refine preserves_bind _ _ _ (quiet_updateSummaryCards _ _ _) fun _ => ?_
    refine preserves_bind _ _ _ (preserves_liftE _ _) fun _ => ?_
    refine preserves_bind _ _ _ (quiet_createFareChart _ isSummary_of_isChart _) fun _ => ?_
    refine preserves_bind _ _ _ (preserves_liftE _ _) fun _ => ?_
    exact quiet_createTimeAnalysisChart _ isSummary_of_isChart _
  · exact preserves_bind _ _ _ (quiet_emit _ _ rfl) fun _ => preserves_throwAct _

theorem quiet_displayInsights (allowed : Event → Bool) (h : Host) (v : JVal)
    (hd : allowed (.displayInsights v) = true) :
    Preserves (quietRel allowed) (displayInsights h v) := by
  unfold displayInsights
  refine preserves_bind _ _ _ (quiet_emit _ _ hd) fun _ => ?_
  refine preserves_bind _ _ _ (preserves_liftE _ _) fun _ => ?_
  refine preserves_bind _ _ _ (preserves_liftE _ _) fun _ => ?_
  refine preserves_bind _ _ _ (preserves_liftE _ _) fun _ => ?_
  refine preserves_bind _ _ _ (preserves_liftE _ _) fun _ => ?_
  refine preserves_bind _ _ _ (preserves_liftE _ _) fun _ => ?_
  refine preserves_bind _ _ _ (preserves_liftE _ _) fun _ => ?_
  exact preserves_modifyPage _ _ fun s => ⟨rfl, rfl, [], by simp, by simp⟩

theorem quiet_loadInsights (h : Host) (out : FetchOutcome) :
    Preserves (quietRel Event.isInsights) (loadInsights h out) := by
  unfold loadInsights
  refine preserves_tryCatch _ _ _ ?_ ?_
  · refine preserves_bind _ _ _ (quiet_fetchJson _ _ _ (by simp [Event.isInsights])) fun _ => ?_
    refine preserves_bind _ _ _ (quiet_displayInsights _ _ _ rfl) fun _ => ?_
    refine preserves_bind _ _ _ (preserves_liftE _ _) fun _ => ?_
    refine preserves_bind _ _ _ (preserves_liftE _ _) fun _ => ?_
    refine preserves_bind _ _ _ (quiet_createDistanceChart _ isInsights_of_isChart _) fun _ => ?_
    refine preserves_bind _ _ _ (preserves_liftE _ _) fun _ => ?_
    refine preserves_bind _ _ _ (preserves_liftE _ _) fun _ => ?_
    exact quiet_createScatterChart _ isInsights_of_isChart _
  · exact preserves_bind _ _ _ (quiet_emit _ _ rfl) fun _ => quiet_displayInsights _ _ _ rfl

/-! ## Throwing does not depend on the page -/

theorem threw_eq_outcome {α : Type} (c : Completion α) : c.threw = c.outcome.isNone := by
  cases c <;> rfl

theorem oblivious_pure {α : Type} (a : α) : Oblivious (pure a : Act α) := fun _ _ => rfl

theorem oblivious_throwAct {α : Type} : Oblivious (throwAct : Act α) := fun _ _ => rfl

theorem oblivious_liftE {α : Type} (e : Except Thrown α) : Oblivious (liftE e) := by
  intro s t
  cases e <;> rfl

theorem oblivious_modifyPage (f : Page → Page) : Oblivious (modifyPage f) := fun _ _ => rfl

theorem oblivious_emit (e : Event) : Oblivious (emit e) := fun _ _ => rfl

theorem oblivious_bind {α β : Type} (m : Act α) (f : α → Act β)
    (hm : Oblivious m) (hf : ∀ a, Oblivious (f a)) : Oblivious (m >>= f) := by
  intro s t
  have h1 := hm s t
  simp only [run_bind]
  cases hs : m s with
  | normal a s1 =>
      cases ht : m t with
      | normal b t1 =>
          rw [hs, ht] at h1
          simp only [Completion.outcome, Option.some.injEq] at h1
          subst h1
          exact hf a s1 t1
      | thrown t1 =>
          rw [hs, ht] at h1
          simp [Completion.outcome] at h1
  | thrown s1 =>
      cases ht : m t with
      | normal b t1 =>
          rw [hs, ht] at h1
          simp [Completion.outcome] at h1
      | thrown t1 => rfl

theorem oblivious_tryCatch {α : Type} (body handler : Act α)
    (hb : Oblivious body) (hh : Oblivious handler) : Oblivious (tryCatch body handler) := by
  intro s t
  have h1 := hb s t
  simp only [run_tryCatch]
  cases hs : body s with
  | normal a s1 =>
      cases ht : body t with
      | normal b t1 =>
          rw [hs, ht] at h1
          exact h1
      | thrown t1 =>
          rw [hs, ht] at h1
          simp [Completion.outcome] at h1
  | thrown s1 =>
      cases ht : body t with
      | normal b t1 =>
          rw [hs, ht] at h1
          simp [Completion.outcome] at h1
      | thrown t1 => exact hh s1 t1

theorem run_destroyIfPresent (o : Option ChartInstance) (s : Page) :
    ∃ s1, destroyIfPresent o s = .normal () s1 := by
  cases o with
  | none => exact ⟨s, rfl⟩
  | some c => exact ⟨_, rfl⟩

theorem createFareChart_normal (v : JVal) (s : Page) :
    ∃ s1, createFareChart v s = .normal () s1 := by
  obtain ⟨s1, h1⟩ := run_destroyIfPresent s.charts.fareChart s
  simp [createFareChart, newChart, h1]

theorem oblivious_createFareChart (v : JVal) : Oblivious (createFareChart v) := by
  intro s t
  obtain ⟨s1, h1⟩ := createFareChart_normal v s
  obtain ⟨t1, h2⟩ := createFareChart_normal v t
  rw [h1, h2]; rfl

theorem oblivious_createTimeAnalysisChart (v : JVal) : Oblivious (createTimeAnalysisChart v) := by
  unfold createTimeAnalysisChart
  refine oblivious_bind _ _ (oblivious_liftE _) fun cats => ?_
  refine oblivious_bind _ _ (oblivious_liftE _) fun avgs => ?_
  intro s t
  obtain ⟨s1, h1⟩ := run_destroyIfPresent s.charts.timeChart s
  obtain ⟨t1, h2⟩ := run_destroyIfPresent t.charts.timeChart t
  simp [newChart, h1, h2, Completion.outcome]

theorem oblivious_updateSummaryCards (h : Host) (v : JVal) :
    Oblivious (updateSummaryCards h v) := by
  unfold updateSummaryCards
  refine oblivious_bind _ _ (oblivious_liftE _) fun _ => ?_
  refine oblivious_bind _ _ (oblivious_liftE _) fun _ => ?_
  refine oblivious_bind _ _ (oblivious_liftE _) fun _ => ?_
  refine oblivious_bind _ _ (oblivious_modifyPage _) fun _ => ?_
  refine oblivious_bind _ _ (oblivious_liftE _) fun _ => ?_
  refine oblivious_bind _ _ (oblivious_liftE _) fun _ => ?_
  refine oblivious_bind _ _ (oblivious_modifyPage _) fun _ => ?_
  refine oblivious_bind _ _ (oblivious_liftE _) fun _ => ?_
  refine oblivious_bind _ _ (oblivious_liftE _) fun _ => ?_
  refine oblivious_bind _ _ (oblivious_modifyPage _) fun _ => ?_
  refine oblivious_bind _ _ (oblivious_liftE _) fun _ => ?_
  refine oblivious_bind _ _ (oblivious_liftE _) fun _ => ?_
  exact oblivious_modifyPage _

theorem oblivious_fetchJson (url : String) (out : FetchOutcome) :
    Oblivious (fetchJson url out) := by
  unfold fetchJson
  refine oblivious_bind _ _ (oblivious_emit _) fun _ => ?_
  cases out with
  | networkError => exact oblivious_throwAct
  | response st body =>
      cases body with
      | none => exact oblivious_throwAct
      | some v => exact oblivious_pure _

theorem oblivious_loadSummaryData (h : Host) (out : FetchOutcome) :
    Oblivious (loadSummaryData h out) := by
  unfold loadSummaryData loadSummaryDataTry
  refine oblivious_tryCatch _ _ ?_ ?_
  · refine oblivious_bind _ _ (oblivious_fetchJson _ _) fun _ => ?_
    refine oblivious_bind _ _ (oblivious_liftE _) fun _ => ?_
    refine oblivious_bind _ _ (oblivious_updateSummaryCards _ _) fun _ => ?_
    refine oblivious_bind _ _ (oblivious_liftE _) fun _ => ?_
    refine oblivious_bind _ _ (oblivious_createFareChart _) fun _ => ?_
    refine oblivious_bind _ _ (oblivious_liftE _) fun _ => ?_
    exact oblivious_createTimeAnalysisChart _
  · exact oblivious_bind _ _ (oblivious_emit _) fun _ => oblivious_throwAct

/-- Whether `loadSummaryData` throws is decided by the host and the fetch outcome. -/
theorem threw_loadSummaryData (h : Host) (out : FetchOutcome) (s : Page) :
    (loadSummaryData h out s).threw = summaryFails h out := by
  unfold summaryFails
  rw [threw_eq_outcome, threw_eq_outcome, oblivious_loadSummaryData h out s blankPage]

theorem updateSummaryCards_of_nullish (h : Host) (v : JVal) (t : Page)
    (hv : nullish v = true) : updateSummaryCards h v t = .thrown t := by
  cases v <;> simp [nullish] at hv <;>
    simp [updateSummaryCards, getProp, ownEntries, Except.map]

theorem loadSummaryData_of_noSummaryObject (h : Host) (out : FetchOutcome) (t : Page)
    (hb : noSummaryObject out.parsed = true) :
    loadSummaryData h out t = .thrown
      { t with trace := t.trace ++ [.fetch (apiBase ++ "/analytics/summary"),
          .consoleError "Error loading summary data:"] } := by
  cases out with
  | networkError => simp [loadSummaryData, loadSummaryDataTry, fetchJson]
  | response status body =>
      cases body with
      | none => simp [loadSummaryData, loadSummaryDataTry, fetchJson]
      | some d =>
          simp only [FetchOutcome.parsed, noSummaryObject] at hb
          cases hg : getProp d "summary" with
          | error e => simp [loadSummaryData, loadSummaryDataTry, fetchJson, hg]
          | ok v =>
              rw [hg] at hb
              simp [loadSummaryData, loadSummaryDataTry, fetchJson, hg,
                updateSummaryCards_of_nullish h v _ hb]

/-! ## Runs of `init()` -/

theorem run_displayInsights_fallback (h : Host) (s : Page) :
    displayInsights h getFallbackInsights s = .normal ()
      { s with
        insights := fallbackPanel
        trace := s.trace ++ [.displayInsights getFallbackInsights] } := by
  simp [displayInsights, getFallbackInsights, fallbackPanel, slotText, getProp, ownEntries, lookupProp, toStr,
    Except.bind, Except.map]

theorem loadInsights_normal (h : Host) (out : FetchOutcome) (s : Page) :
    ∃ s1, loadInsights h out s = .normal () s1 := by
  unfold loadInsights
  simp only [run_tryCatch]
  split
  · next a s1 _ => exact ⟨s1, rfl⟩
  · next s1 _ =>
      simp only [run_bind, run_emit, run_displayInsights_fallback]
      exact ⟨_, rfl⟩

theorem init_of_summary_thrown (h : Host) (net : Net) (s s1 : Page)
    (hs : loadSummaryData h net.summary { s with trace := s.trace ++ [.initStart] } = .thrown s1) :
    init h net s = .normal ()
      { s1 with
        container := errorMarkup loadFailedMessage :: s1.container
        trace := s1.trace ++ [.handleError loadFailedMessage] } := by
  simp [init, hs, handleError]

theorem init_of_summary_normal (h : Host) (net : Net) (s s1 s2 : Page)
    (hs : loadSummaryData h net.summary { s with trace := s.trace ++ [.initStart] } = .normal () s1)
    (hi : loadInsights h net.insights s1 = .normal () s2) :
    init h net s = .normal ()
      { s2 with
        keydownListeners := s2.keydownListeners + 1
        trace := s2.trace ++ [.setupEventListeners] } := by
  simp [init, hs, hi, setupEventListeners]

theorem init_normal (h : Host) (net : Net) (s : Page) : ∃ s1, init h net s = .normal () s1 := by
  cases hs : loadSummaryData h net.summary { s with trace := s.trace ++ [.initStart] } with
  | thrown s1 => exact ⟨_, init_of_summary_thrown h net s s1 hs⟩
  | normal u s1 =>
      obtain ⟨s2, hi⟩ := loadInsights_normal h net.insights s1
      exact ⟨_, init_of_summary_normal h net s s1 s2 hs hi⟩

theorem displayInsightsArgs_append (tr evs : List Event) :
    displayInsightsArgs (tr ++ evs) = displayInsightsArgs tr ++ displayInsightsArgs evs := by
  simp [displayInsightsArgs, List.filterMap_append]

theorem displayInsightsArgs_quiet (evs : List Event) (hq : ∀ e ∈ evs, e.isSummary = true) :
    displayInsightsArgs evs = [] := by
  unfold displayInsightsArgs
  rw [List.filterMap_eq_nil_iff]
  intro e he
  have := hq e he
  cases e <;> simp_all [Event.isSummary]

/-- C1: when `loadSummaryData` has succeeded and the insights fetch fails (network
failure, or a body that is not JSON), `loadInsights` completes normally after
one call of `displayInsights`, on the value of `getFallbackInsights()`; `init()`
then completes normally as well, registers its listener, and `handleError` is
not called: the container is as before the run. -/
theorem C1_insights_failure_uses_fallback (h : Host) (net : Net) (s : Page)
    (hsum : summaryFails h net.summary = false) (hins : net.insights.failed = true) :
    let s1 := (loadSummaryData h net.summary { s with trace := s.trace ++ [.initStart] }).page
    let s2 : Page :=
      { s1 with
        insights := fallbackPanel
        trace := s1.trace ++
          [.fetch (apiBase ++ "/analytics/insights"), .consoleError "Error loading insights:",
            .displayInsights getFallbackInsights] }
    loadInsights h net.insights s1 = .normal () s2 ∧
    init h net s = .normal ()
      { s2 with
        keydownListeners := s2.keydownListeners + 1
        trace := s2.trace ++ [.setupEventListeners] } ∧
    (init h net s).page.container = s.container ∧
    (init h net s).page.trace.countP Event.isHandleError = s.trace.countP Event.isHandleError ∧
    displayInsightsArgs (init h net s).page.trace =
      displayInsightsArgs s.trace ++ [getFallbackInsights] := by
  intro s1 s2
  have hq := quiet_loadSummaryData h net.summary { s with trace := s.trace ++ [.initStart] }
  obtain ⟨hc, _, evs, htr, hevs⟩ := hq
  have hthrew := threw_loadSummaryData h net.summary { s with trace := s.trace ++ [.initStart] }
  rw [hsum] at hthrew
  have hs1 : loadSummaryData h net.summary { s with trace := s.trace ++ [.initStart] }
      = .normal () s1 := by
    cases hl : loadSummaryData h net.summary { s with trace := s.trace ++ [.initStart] } with
    | normal u t => simp [s1, hl, Completion.page]
    | thrown t => rw [hl] at hthrew; simp [Completion.threw] at hthrew
  have hli : loadInsights h net.insights s1 = .normal () s2 := by
    have hf : ∀ t : Page, fetchJson (apiBase ++ "/analytics/insights") net.insights t
        = .thrown { t with trace := t.trace ++ [.fetch (apiBase ++ "/analytics/insights")] } := by
      intro t
      cases hn : net.insights with
      | networkError => simp [fetchJson]
      | response st body =>
          cases body with
          | none => simp [fetchJson]
          | some v => rw [hn] at hins; simp [FetchOutcome.failed] at hins
    simp [loadInsights, hf, run_displayInsights_fallback, s2]
  have hinit := init_of_summary_normal h net s s1 s2 hs1 hli
  refine ⟨hli, hinit, ?_, ?_, ?_⟩
  · rw [hinit]
    simpa [Completion.page, s2] using hc
  · rw [hinit]
    have h1 : s1.trace = (s.trace ++ [.initStart]) ++ evs := htr
    simp only [Completion.page, s2, h1, List.countP_append, List.countP_cons, List.countP_nil,
      Event.isHandleError]
    have : evs.countP Event.isHandleError = 0 := by
      rw [List.countP_eq_zero]
      intro e he
      have := hevs e he
      cases e <;> simp_all [Event.isSummary, Event.isHandleError]
    simp [this]
  · rw [hinit]
    have h1 : s1.trace = (s.trace ++ [.initStart]) ++ evs := htr
    simp only [Completion.page, s2, h1, displayInsightsArgs_append,
      displayInsightsArgs_quiet evs hevs]
    simp [displayInsightsArgs]

theorem C1_insights_failure_uses_fallback_witness :
    summaryFails sampleHost (.response 200 (some sampleSummary)) = false ∧
    FetchOutcome.networkError.failed = true ∧
    (init sampleHost ⟨.response 200 (some sampleSummary), .networkError⟩ blankPage).page.insights
      = fallbackPanel ∧
    (init sampleHost ⟨.response 200 (some sampleSummary), .networkError⟩ blankPage).page.container
      = [] :=
  ⟨by decide, by decide,
    by
      have h := (C1_insights_failure_uses_fallback sampleHost
        ⟨.response 200 (some sampleSummary), .networkError⟩ blankPage (by decide) (by decide)).2.1
      rw [h]; rfl,
    (C1_insights_failure_uses_fallback sampleHost
      ⟨.response 200 (some sampleSummary), .networkError⟩ blankPage (by decide) (by decide)).2.2.1⟩

theorem init_page_of_summary_fails (h : Host) (net : Net) (s : Page)
    (hfail : summaryFails h net.summary = true) :
    ∃ s1, loadSummaryData h net.summary { s with trace := s.trace ++ [.initStart] } = .thrown s1 ∧
      s1.container = s.container ∧ s1.keydownListeners = s.keydownListeners ∧
      (∃ evs, s1.trace = s.trace ++ [.initStart] ++ evs ∧ ∀ e ∈ evs, e.isSummary = true) ∧
      init h net s = .normal ()
        { s1 with
          container := errorMarkup loadFailedMessage :: s1.container
          trace := s1.trace ++ [.handleError loadFailedMessage] } := by
  have hq := quiet_loadSummaryData h net.summary { s with trace := s.trace ++ [.initStart] }
  have hthrew := threw_loadSummaryData h net.summary { s with trace := s.trace ++ [.initStart] }
  rw [hfail] at hthrew
  cases hl : loadSummaryData h net.summary { s with trace := s.trace ++ [.initStart] } with
  | normal u t => rw [hl] at hthrew; simp [Completion.threw] at hthrew
  | thrown t =>
      rw [hl] at hq
      obtain ⟨hc, hk, evs, htr, hevs⟩ := hq
      exact ⟨t, rfl, hc, hk, ⟨evs, htr, hevs⟩, init_of_summary_thrown h net s t hl⟩

/-- C2: in every run of `init()` in which `loadSummaryData` throws, the insights
resource is not fetched, `displayInsights` is not called, and
`setupEventListeners` is not called: the counts of these calls and the number of
keydown listeners are what they were before the run. -/
theorem C2_summary_failure_skips_insights (h : Host) (net : Net) (s : Page)
    (hfail : summaryFails h net.summary = true) :
    (init h net s).page.trace.countP Event.isInsightsFetch
      = s.trace.countP Event.isInsightsFetch ∧
    displayInsightsArgs (init h net s).page.trace = displayInsightsArgs s.trace ∧
    (init h net s).page.trace.countP Event.isSetup = s.trace.countP Event.isSetup ∧
    (init h net s).page.keydownListeners = s.keydownListeners := by
  obtain ⟨s1, _, _, hk, ⟨evs, htr, hevs⟩, hinit⟩ := init_page_of_summary_fails h net s hfail
  rw [hinit]
  simp only [Completion.page, htr]
  refine ⟨?_, ?_, ?_, hk⟩
  · have : evs.countP Event.isInsightsFetch = 0 := by
      rw [List.countP_eq_zero]
      intro e he
      have := hevs e he
      cases e <;> simp_all [Event.isSummary, Event.isInsightsFetch, apiBase]
    simp [List.countP_append, List.countP_cons, Event.isInsightsFetch, this]
  · rw [displayInsightsArgs_append, displayInsightsArgs_append, displayInsightsArgs_append,
      displayInsightsArgs_quiet evs hevs]
    simp [displayInsightsArgs]
  · have : evs.countP Event.isSetup = 0 := by
      rw [List.countP_eq_zero]
      intro e he
      have := hevs e he
      cases e <;> simp_all [Event.isSummary, Event.isSetup]
    simp [List.countP_append, List.countP_cons, Event.isSetup, this]

theorem C2_summary_failure_skips_insights_witness :
    summaryFails sampleHost .networkError = true ∧
    (init sampleHost ⟨.networkError, .response 200 (some getFallbackInsights)⟩
      blankPage).page.trace.countP Event.isInsightsFetch = 0 ∧
    (init sampleHost ⟨.networkError, .response 200 (some getFallbackInsights)⟩
      blankPage).page.keydownListeners = 0 :=
  ⟨by decide,
    (C2_summary_failure_skips_insights sampleHost
      ⟨.networkError, .response 200 (some getFallbackInsights)⟩ blankPage (by decide)).1,
    (C2_summary_failure_skips_insights sampleHost
      ⟨.networkError, .response 200 (some getFallbackInsights)⟩ blankPage (by decide)).2.2.2⟩

/-- C7, as the code has it: a failure of `loadSummaryData` does not leave
`init()`.  The `catch` block of `init()` calls `handleError` itself, once, which
puts the error banner first in the container, and `init()` completes normally. -/
theorem C7_init_catches_summary_failure (h : Host) (net : Net) (s : Page)
    (hfail : summaryFails h net.summary = true) :
    (init h net s).threw = false ∧
    (init h net s).page.container = errorMarkup loadFailedMessage :: s.container ∧
    (init h net s).page.trace.countP Event.isHandleError
      = s.trace.countP Event.isHandleError + 1 := by
  obtain ⟨s1, _, hc, _, ⟨evs, htr, hevs⟩, hinit⟩ := init_page_of_summary_fails h net s hfail
  rw [hinit]
  refine ⟨rfl, by simp only [Completion.page, hc], ?_⟩
  simp only [Completion.page, htr]
  have : evs.countP Event.isHandleError = 0 := by
    rw [List.countP_eq_zero]
    intro e he
    have := hevs e he
    cases e <;> simp_all [Event.isSummary, Event.isHandleError]
  simp [List.countP_append, List.countP_cons, Event.isHandleError, this]

theorem C7_init_catches_summary_failure_witness :
    summaryFails sampleHost .networkError = true ∧
    (init sampleHost ⟨.networkError, .networkError⟩ blankPage).threw = false :=
  ⟨by decide,
    (C7_init_catches_summary_failure sampleHost ⟨.networkError, .networkError⟩ blankPage
      (by decide)).1⟩

/-- C7 as stated fails: the summary fetch meets a network failure, so
`loadSummaryData` throws, and yet `init()` completes normally, with the banner
already in the container when it returns. -/
theorem C7_counterexample :
    summaryFails sampleHost .networkError = true ∧
    (init sampleHost ⟨.networkError, .networkError⟩ blankPage).threw = false ∧
    (init sampleHost ⟨.networkError, .networkError⟩ blankPage).page.container
      = [errorMarkup loadFailedMessage] := by
  refine ⟨by decide, by decide, by rfl⟩

set_option maxRecDepth 100000 in
/-- C3 as stated fails: the summary fetch returns status 500 with a body that is
a summary response; `loadSummaryData` does not fail, `init()` inserts no banner,
and a chart is created on the fare surface and on the time surface. -/
theorem C3_counterexample :
    summaryFails sampleHost (.response 500 (some sampleSummary)) = false ∧
    (init sampleHost ⟨.response 500 (some sampleSummary), .networkError⟩ blankPage).page.container
      = [] ∧
    (init sampleHost ⟨.response 500 (some sampleSummary), .networkError⟩ blankPage).page.live.map
      (fun c => c.canvas) = ["fareChart", "timeChart"] := by
  refine ⟨by decide, by decide, by rfl⟩

/-- C3, as the code has it: the status of a response is never looked at.
Whatever the status, when the body of the summary response is not JSON or has
no `summary` object, `loadSummaryData` fails, `init()` puts one banner first in
the container, and no chart is created: `this.charts`, the live chart instances
and the chart counter are as before.  And for every body and every page, another
status gives the same run of `loadSummaryData`, of `loadInsights` and of
`init()`: a body that renders under status 200 renders the same way under
status 500. -/
theorem C3_unusable_body_shows_one_banner (h : Host) (status : Nat) (body : Option JVal)
    (insights : FetchOutcome) (s : Page) (hbody : noSummaryObject body = true) :
    summaryFails h (.response status body) = true ∧
    (init h ⟨.response status body, insights⟩ s).page.container
      = errorMarkup loadFailedMessage :: s.container ∧
    (init h ⟨.response status body, insights⟩ s).page.charts = s.charts ∧
    (init h ⟨.response status body, insights⟩ s).page.live = s.live ∧
    (init h ⟨.response status body, insights⟩ s).page.nextChartId = s.nextChartId ∧
    (∀ (other : Nat) (b : Option JVal) (p : Page),
      loadSummaryData h (.response status b) p = loadSummaryData h (.response other b) p) ∧
    (∀ (other : Nat) (b : Option JVal) (p : Page),
      loadInsights h (.response status b) p = loadInsights h (.response other b) p) ∧
    (∀ (other : Nat) (b : Option JVal) (ins : FetchOutcome) (p : Page),
      init h ⟨.response status b, ins⟩ p = init h ⟨.response other b, ins⟩ p) ∧
    (∀ (other : Nat) (b : Option JVal) (sum : FetchOutcome) (p : Page),
      init h ⟨sum, .response status b⟩ p = init h ⟨sum, .response other b⟩ p) := by
  have key : ∀ t : Page, loadSummaryData h (.response status body) t = .thrown
      { t with trace := t.trace ++ [.fetch (apiBase ++ "/analytics/summary"),
          .consoleError "Error loading summary data:"] } :=
    fun t => loadSummaryData_of_noSummaryObject h (.response status body) t hbody
  have hfail : summaryFails h (.response status body) = true := by
    unfold summaryFails
    rw [key]; rfl
  have hinit := init_of_summary_thrown h ⟨.response status body, insights⟩ s _ (key _)
  rw [hinit]
  refine ⟨hfail, rfl, rfl, rfl, rfl, ?_, ?_, ?_, ?_⟩
  · intro other b p
    cases b <;> rfl
  · intro other b p
    cases b <;> rfl
  · intro other b ins p
    cases b <;> rfl
  · intro other b sum p
    cases b <;> rfl

set_option maxRecDepth 100000 in
theorem C3_unusable_body_shows_one_banner_witness :
    noSummaryObject (some (.obj [("error", .str "Internal Server Error")])) = true ∧
    (init sampleHost ⟨.response 500 (some (.obj [("error", .str "Internal Server Error")])),
      .networkError⟩ blankPage).page.container = [errorMarkup loadFailedMessage] ∧
    loadSummaryData sampleHost (.response 500 (some sampleSummary)) blankPage
      = loadSummaryData sampleHost (.response 200 (some sampleSummary)) blankPage ∧
    init sampleHost ⟨.response 404 (some sampleSummary), .response 503 (some sampleInsights)⟩
        blankPage
      = init sampleHost ⟨.response 200 (some sampleSummary), .response 200 (some sampleInsights)⟩
        blankPage :=
  have hw := C3_unusable_body_shows_one_banner sampleHost 500
    (some (.obj [("error", .str "Internal Server Error")])) .networkError blankPage
    (by decide)
  have hv := C3_unusable_body_shows_one_banner sampleHost 404
    (some (.obj [("error", .str "Internal Server Error")])) .networkError blankPage
    (by decide)
  have hu := C3_unusable_body_shows_one_banner sampleHost 503
    (some (.obj [("error", .str "Internal Server Error")])) .networkError blankPage
    (by decide)
  ⟨by decide, hw.2.1, hw.2.2.2.2.2.1 200 (some sampleSummary) blankPage,
    (hv.2.2.2.2.2.2.2.1 200 (some sampleSummary) _ blankPage).trans
      (hu.2.2.2.2.2.2.2.2 200 (some sampleInsights) _ blankPage)⟩

theorem timeEntry_fetchJson (url : String) (out : FetchOutcome) :
    Preserves timeEntryRel (fetchJson url out) := by
  unfold fetchJson
  refine preserves_bind _ _ _ (fun s => rfl) fun _ => ?_
  cases out with
  | networkError => exact preserves_throwAct _
  | response st body =>
      cases body with
      | none => exact preserves_throwAct _
      | some v => exact preserves_pure _ _

theorem timeEntry_updateSummaryCards (h : Host) (v : JVal) :
    Preserves timeEntryRel (updateSummaryCards h v) := by
  unfold updateSummaryCards
  refine preserves_bind _ _ _ (preserves_liftE _ _) fun _ => ?_
  refine preserves_bind _ _ _ (preserves_liftE _ _) fun _ => ?_
  refine preserves_bind _ _ _ (preserves_liftE _ _) fun _ => ?_
  refine preserves_bind _ _ _ (fun s => rfl) fun _ => ?_
  refine preserves_bind _ _ _ (preserves_liftE _ _) fun _ => ?_
  refine preserves_bind _ _ _ (preserves_liftE _ _) fun _ => ?_
  refine preserves_bind _ _ _ (fun s => rfl) fun _ => ?_
  refine preserves_bind _ _ _ (preserves_liftE _ _) fun _ => ?_
  refine preserves_bind _ _ _ (preserves_liftE _ _) fun _ => ?_
  refine preserves_bind _ _ _ (fun s => rfl) fun _ => ?_
  refine preserves_bind _ _ _ (preserves_liftE _ _) fun _ => ?_
  refine preserves_bind _ _ _ (preserves_liftE _ _) fun _ => ?_
  exact fun s => rfl

theorem timeEntry_destroyIfPresent (o : Option ChartInstance) :
    Preserves timeEntryRel (destroyIfPresent o) := by
  cases o with
  | none => exact fun s => rfl
  | some c => exact fun s => rfl

theorem timeEntry_createFareChart (v : JVal) : Preserves timeEntryRel (createFareChart v) := by
  unfold createFareChart
  refine preserves_bind _ _ _ (preserves_getPage _) fun s => ?_
  refine preserves_bind _ _ _ (timeEntry_destroyIfPresent _) fun _ => ?_
  refine preserves_bind _ _ _ (fun s => rfl) fun _ => ?_
  exact fun s => rfl

theorem createTimeAnalysisChart_thrown (v : JVal) (s : Page)
    (ht : (createTimeAnalysisChart v s).threw = true) :
    (createTimeAnalysisChart v s).page = s := by
  obtain ⟨s1, h1⟩ := run_destroyIfPresent s.charts.timeChart s
  unfold createTimeAnalysisChart at ht ⊢
  cases hk : objectKeys v with
  | error e => simp [hk, Completion.page]
  | ok cats =>
      cases hm : mapThrowing
          (fun cat => (getProp v cat).bind fun e => getProp e "average_fare") cats with
      | error e => simp [hk, hm, Completion.page]
      | ok avgs => simp [hk, hm, h1, newChart, Completion.threw] at ht

theorem threw_bind_rel {α β : Type} (R : PageRel) (m : Act α) (f : α → Act β)
    (hm : Preserves R m)
    (hf : ∀ a s, (f a s).threw = true → R.rel s (f a s).page) (s : Page)
    (ht : ((m >>= f) s).threw = true) : R.rel s ((m >>= f) s).page := by
  have h1 := hm s
  simp only [run_bind] at ht ⊢
  cases hms : m s with
  | normal a s1 =>
      rw [hms] at h1 ht
      exact R.trans _ _ _ h1 (hf a s1 ht)
  | thrown s1 =>
      rw [hms] at h1
      exact h1

theorem timeEntry_loadSummaryDataTry (h : Host) (out : FetchOutcome) (s : Page)
    (ht : (loadSummaryDataTry h out s).threw = true) :
    (loadSummaryDataTry h out s).page.charts.timeChart = s.charts.timeChart := by
  have key : timeEntryRel.rel s (loadSummaryDataTry h out s).page := by
    unfold loadSummaryDataTry at ht ⊢
    refine threw_bind_rel _ _ _ (timeEntry_fetchJson _ _) (fun data s1 => ?_) s ht
    refine threw_bind_rel _ _ _ (preserves_liftE _ _) (fun summary s2 => ?_) s1
    refine threw_bind_rel _ _ _ (timeEntry_updateSummaryCards _ _) (fun _ s3 => ?_) s2
    refine threw_bind_rel _ _ _ (preserves_liftE _ _) (fun tf s4 => ?_) s3
    refine threw_bind_rel _ _ _ (timeEntry_createFareChart _) (fun _ s5 => ?_) s4
    refine threw_bind_rel _ _ _ (preserves_liftE _ _) (fun ta s6 => ?_) s5
    intro h6
    rw [createTimeAnalysisChart_thrown ta s6 h6]
    exact rfl
  exact key

set_option maxRecDepth 100000 in
/-- C5 as stated fails: on a body whose `time_analysis` is missing,
`loadSummaryData` fails after the summary cards and the fare chart have been
rendered; the trips card and the fare entry of `this.charts` are not what they
were before the call. -/
theorem C5_counterexample :
    (loadSummaryData sampleHost (.response 200 (some partialSummary)) blankPage).threw = true ∧
    (loadSummaryData sampleHost (.response 200 (some partialSummary)) blankPage).page.totalTrips
      = "5" ∧
    blankPage.totalTrips = "" ∧
    (loadSummaryData sampleHost (.response 200 (some partialSummary)) blankPage).page.totalTrips
      ≠ blankPage.totalTrips ∧
    (loadSummaryData sampleHost (.response 200 (some partialSummary))
      blankPage).page.charts.fareChart.isSome = true ∧
    blankPage.charts.fareChart.isSome = false := by
  refine ⟨by rfl, by rfl, by rfl, by decide, by rfl, by rfl⟩

/-- C5, as the code has it: when the `try` block of `loadSummaryData` fails, the
error is logged and thrown again to the caller, and the time entry of
`this.charts` is as before; when the failure is that of the fetch, of the
parsing, or of a body without `summary` object, nothing has been rendered: the
four summary cards, `this.charts` and the live chart instances are as
before. -/
theorem C5_failure_rethrown (h : Host) (out : FetchOutcome) (s : Page)
    (hfail : (loadSummaryDataTry h out s).threw = true) :
    (loadSummaryData h out s).threw = true ∧
    (loadSummaryData h out s).page.trace
      = (loadSummaryDataTry h out s).page.trace ++ [.consoleError "Error loading summary data:"] ∧
    (loadSummaryData h out s).page.charts.timeChart = s.charts.timeChart ∧
    (noSummaryObject out.parsed = true →
      (loadSummaryData h out s).page.totalTrips = s.totalTrips ∧
      (loadSummaryData h out s).page.avgFare = s.avgFare ∧
      (loadSummaryData h out s).page.avgDistance = s.avgDistance ∧
      (loadSummaryData h out s).page.avgSpeed = s.avgSpeed ∧
      (loadSummaryData h out s).page.charts = s.charts ∧
      (loadSummaryData h out s).page.live = s.live) := by
  have htime := timeEntry_loadSummaryDataTry h out s hfail
  cases hb : loadSummaryDataTry h out s with
  | normal u s1 => rw [hb] at hfail; simp [Completion.threw] at hfail
  | thrown s1 =>
      rw [hb] at htime
      have hl : loadSummaryData h out s = .thrown
          { s1 with trace := s1.trace ++ [.consoleError "Error loading summary data:"] } := by
        simp [loadSummaryData, hb]
      refine ⟨by rw [hl]; rfl, by rw [hl]; rfl, by rw [hl]; exact htime, ?_⟩
      intro hno
      rw [loadSummaryData_of_noSummaryObject h out s hno]
      exact ⟨rfl, rfl, rfl, rfl, rfl, rfl⟩

set_option maxRecDepth 100000 in
theorem C5_failure_rethrown_witness :
    (loadSummaryDataTry sampleHost (.response 200 (some partialSummary)) blankPage).threw = true ∧
    (loadSummaryData sampleHost (.response 200 (some partialSummary)) blankPage).threw = true ∧
    (loadSummaryData sampleHost (.response 200 (some partialSummary))
      blankPage).page.charts.timeChart = blankPage.charts.timeChart :=
  ⟨by rfl,
    (C5_failure_rethrown sampleHost (.response 200 (some partialSummary)) blankPage (by rfl)).1,
    (C5_failure_rethrown sampleHost (.response 200 (some partialSummary)) blankPage
      (by rfl)).2.2.1⟩

/-! ## Summary cards -/

theorem tripsText (h : Host) (f : Option JVal) (hf : numericOrMissing f = true)
    (hloc : ∀ n, f = some (.num n) → h.numToLocaleString n ≠ "") :
    ((if nullish (f.getD .undefined) then Except.ok JVal.undefined
      else (toLocaleStr h (f.getD .undefined)).map JVal.str).bind fun r =>
        toStr h (if truthy r then r else JVal.str "0")) = .ok (cardTrips h f) := by
  cases f with
  | none => simp [nullish, truthy, toStr, cardTrips, Except.bind]
  | some v =>
      cases v <;> simp [numericOrMissing] at hf
      · simp [nullish, truthy, toStr, cardTrips, Except.bind]
      · next n =>
          have := hloc n rfl
          simp [nullish, truthy, toStr, toLocaleStr, cardTrips, Except.bind, Except.map, this]

theorem amountText (h : Host) (f : Option JVal) (hf : numericOrMissing f = true) :
    toStr h (if truthy (f.getD .undefined) then f.getD .undefined else JVal.str "0.00")
      = .ok (cardAmount h f) := by
  cases f with
  | none => simp [truthy, toStr, cardAmount]
  | some v =>
      cases v <;> simp [numericOrMissing] at hf
      · simp [truthy, toStr, cardAmount]
      · next n =>
          by_cases hz : n.mant = 0
          · simp [truthy, toStr, cardAmount, hz]
          · simp [truthy, toStr, cardAmount, hz]

/-- C6 as stated fails: `average_fare` is present and equal to 0, and the fare
card shows `$0.00`, not `$` followed by the number, which is `$0`. -/
theorem C6_counterexample :
    lookupProp "average_fare" [("average_fare", JVal.int 0)] = some (JVal.int 0) ∧
    (updateSummaryCards sampleHost (.obj [("average_fare", .int 0)]) blankPage).page.avgFare
      = "$0.00" ∧
    "$" ++ sampleHost.numToString ⟨0, 0⟩ = "$0" ∧
    (updateSummaryCards sampleHost (.obj [("average_fare", .int 0)]) blankPage).page.avgFare
      ≠ "$" ++ sampleHost.numToString ⟨0, 0⟩ := by
  refine ⟨by rfl, by rfl, by rfl, by decide⟩

/-- C6, as the code has it: for every summary object whose four fields are each
absent, `null` or a number, `updateSummaryCards` completes normally and writes:
to the trips card the locale rendering of `total_trips` when it is a number (a
rendering that is not empty), and `0` when it is absent or `null`; to the fare
card `$` followed by `average_fare` when it is a number other than zero, and
`$0.00` when it is absent, `null` or zero; likewise `average_distance` before
` mi` and `average_speed` before ` mph`, with `0.00` when absent, `null` or
zero.  Nothing else on the page changes. -/
theorem C6_summary_cards (h : Host) (props : List (String × JVal)) (s : Page)
    (h1 : numericOrMissing (lookupProp "total_trips" props) = true)
    (h2 : numericOrMissing (lookupProp "average_fare" props) = true)
    (h3 : numericOrMissing (lookupProp "average_distance" props) = true)
    (h4 : numericOrMissing (lookupProp "average_speed" props) = true)
    (hloc : ∀ n, lookupProp "total_trips" props = some (.num n) → h.numToLocaleString n ≠ "") :
    updateSummaryCards h (.obj props) s = .normal ()
      { s with
        totalTrips := cardTrips h (lookupProp "total_trips" props)
        avgFare := "$" ++ cardAmount h (lookupProp "average_fare" props)
        avgDistance := cardAmount h (lookupProp "average_distance" props) ++ " mi"
        avgSpeed := cardAmount h (lookupProp "average_speed" props) ++ " mph" } := by
  have e1 := tripsText h _ h1 hloc
  have e2 := amountText h _ h2
  have e3 := amountText h _ h3
  have e4 := amountText h _ h4
  cases hr : (if nullish ((lookupProp "total_trips" props).getD .undefined) then
      Except.ok JVal.undefined
      else (toLocaleStr h ((lookupProp "total_trips" props).getD .undefined)).map JVal.str) with
  | error e => rw [hr] at e1; simp [Except.bind] at e1
  | ok r =>
      rw [hr] at e1
      simp only [Except.bind] at e1
      simp only [Except.map] at hr
      simp [updateSummaryCards, getProp, ownEntries, Except.map, hr, e1, e2, e3, e4]

theorem C6_summary_cards_witness :
    (updateSummaryCards sampleHost
      (.obj [("total_trips", .int 1234567), ("average_fare", .num ⟨1250, 2⟩),
        ("average_speed", .null)]) blankPage).page.totalTrips = "1,234,567" ∧
    (updateSummaryCards sampleHost
      (.obj [("total_trips", .int 1234567), ("average_fare", .num ⟨1250, 2⟩),
        ("average_speed", .null)]) blankPage).page.avgFare = "$12.5" := by
  have hw := C6_summary_cards sampleHost
    [("total_trips", .int 1234567), ("average_fare", .num ⟨1250, 2⟩), ("average_speed", .null)]
    blankPage (by decide) (by decide) (by decide) (by decide)
    (by
      intro n hn
      have : n = ⟨1234567, 0⟩ := by
        simp [lookupProp, JVal.int] at hn
        exact hn.symm
      subst this
      decide)
  rw [hw]
  exact ⟨by rfl, by rfl⟩

/-! ## The distance chart -/

theorem lookupProp_of_mem_nodup (entries : List (String × JVal))
    (hn : (entries.map Prod.fst).Nodup) (e : String × JVal) (he : e ∈ entries) :
    lookupProp e.1 entries = some e.2 := by
  induction entries with
  | nil => simp at he
  | cons x rest ih =>
      obtain ⟨k, v⟩ := x
      simp only [List.map_cons, List.nodup_cons] at hn
      simp only [lookupProp]
      rcases List.mem_cons.mp he with h | h
      · subst h; simp
      · have hne : k ≠ e.1 := by
          intro hk
          apply hn.1
          rw [hk]
          exact List.mem_map_of_mem Prod.fst h
        simp [hne, ih hn.2 h]

theorem mapThrowing_counts (data : JVal) (es : List (String × JVal)) (cs : List JVal)
    (hes : List.Forall₂
      (fun e c => getProp data e.1 = .ok e.2 ∧ getProp e.2 "count" = .ok c) es cs) :
    mapThrowing (fun label => (getProp data label).bind fun e => getProp e "count")
      (es.map Prod.fst) = .ok cs := by
  induction hes with
  | nil => rfl
  | cons hd _ ih =>
      simp only [Except.bind] at ih
      simp [mapThrowing, hd.1, hd.2, ih, Except.bind]

/-- C8: for a mapping with distinct keys whose entries are objects with a
`count`, `createDistanceChart` creates one doughnut chart, stored in the
distance entry of `this.charts`, whose labels are the keys of the mapping in
their order and whose one dataset holds the counts of those keys in the same
order; labels and values have the length of the mapping. -/
theorem C8_distance_chart_follows_keys (entries : List (String × JVal)) (counts : List JVal)
    (s : Page) (hkeys : (entries.map Prod.fst).Nodup)
    (hcount : List.Forall₂
      (fun e c => ∃ ps, e.2 = JVal.obj ps ∧ lookupProp "count" ps = some c) entries counts) :
    (createDistanceChart (.obj entries) s).threw = false ∧
    (createDistanceChart (.obj entries) s).page.charts.distanceChart = some
      { id := s.nextChartId
        canvas := "distanceChart"
        config :=
          { kind := "doughnut"
            labels := some (entries.map Prod.fst)
            datasetLabel := none
            data := .arr counts
            title := "Trip Distribution by Distance" } } ∧
    (entries.map Prod.fst).length = entries.length ∧ counts.length = entries.length := by
  have hall : ∀ (es : List (String × JVal)) (cs : List JVal),
      (∀ e ∈ es, e ∈ entries) →
      List.Forall₂ (fun e c => ∃ ps, e.2 = JVal.obj ps ∧ lookupProp "count" ps = some c) es cs →
      List.Forall₂ (fun e c => getProp (.obj entries) e.1 = .ok e.2 ∧ getProp e.2 "count" = .ok c)
        es cs := by
    intro es cs hsub hf
    induction hf with
    | nil => exact List.Forall₂.nil
    | @cons e c es1 cs1 hd _ ih =>
        obtain ⟨ps, hps, hc⟩ := hd
        refine List.Forall₂.cons ⟨?_, ?_⟩ (ih fun x hx => hsub x (List.mem_cons_of_mem _ hx))
        · simp [getProp, ownEntries, Except.map,
            lookupProp_of_mem_nodup entries hkeys e (hsub e (List.mem_cons_self _ _))]
        · rw [hps]; simp [getProp, ownEntries, Except.map, hc]
  have hm := mapThrowing_counts (.obj entries) entries counts
    (hall entries counts (fun e he => he) hcount)
  obtain ⟨s1, h1⟩ := run_destroyIfPresent s.charts.distanceChart s
  have hid : s1.nextChartId = s.nextChartId := by
    cases hd : s.charts.distanceChart with
    | none => rw [hd] at h1; simp [destroyIfPresent] at h1; rw [← h1]
    | some c =>
        rw [hd] at h1
        simp [destroyIfPresent, destroyChart] at h1
        rw [← h1]
  have hk : objectKeys (.obj entries) = .ok (entries.map Prod.fst) := rfl
  refine ⟨?_, ?_, by simp, hcount.length_eq.symm⟩
  · simp [createDistanceChart, hk, hm, h1, newChart, Completion.threw]
  · simp [createDistanceChart, hk, hm, h1, newChart, Completion.page, hid]

theorem C8_distance_chart_follows_keys_witness :
    (createDistanceChart (.obj sampleDistanceData) blankPage).threw = false ∧
    (createDistanceChart (.obj sampleDistanceData) blankPage).page.charts.distanceChart = some
      { id := 0
        canvas := "distanceChart"
        config :=
          { kind := "doughnut"
            labels := some ["Short (0-1mi)", "Medium (1-3mi)"]
            datasetLabel := none
            data := .arr [.int 120, .int 300]
            title := "Trip Distribution by Distance" } } :=
  ⟨(C8_distance_chart_follows_keys sampleDistanceData [.int 120, .int 300] blankPage
      (by decide)
      (List.Forall₂.cons ⟨_, rfl, rfl⟩ (List.Forall₂.cons ⟨_, rfl, rfl⟩ List.Forall₂.nil))).1,
    (C8_distance_chart_follows_keys sampleDistanceData [.int 120, .int 300] blankPage
      (by decide)
      (List.Forall₂.cons ⟨_, rfl, rfl⟩ (List.Forall₂.cons ⟨_, rfl, rfl⟩ List.Forall₂.nil))).2.1⟩

/-! ## The insights panel -/

theorem slotText_eq (h : Host) (v : JVal) (slot field : String) :
    slotText h v slot field = (slotValue v slot field).bind fun x => toStr h x := by
  unfold slotText slotValue
  cases getProp v slot <;> rfl

theorem displayInsights_frame (h : Host) (v : JVal) (s : Page) :
    ∃ panel, (displayInsights h v s).page =
      { s with insights := panel, trace := s.trace ++ [.displayInsights v] } := by
  unfold displayInsights
  simp only [run_bind, run_emit]
  cases slotText h v "insight_1" "title" with
  | error e => exact ⟨s.insights, rfl⟩
  | ok t1 =>
  cases slotText h v "insight_1" "description" with
  | error e => exact ⟨s.insights, rfl⟩
  | ok d1 =>
  cases slotText h v "insight_2" "title" with
  | error e => exact ⟨s.insights, rfl⟩
  | ok t2 =>
  cases slotText h v "insight_2" "description" with
  | error e => exact ⟨s.insights, rfl⟩
  | ok d2 =>
  cases slotText h v "insight_3" "title" with
  | error e => exact ⟨s.insights, rfl⟩
  | ok t3 =>
  cases slotText h v "insight_3" "description" with
  | error e => exact ⟨s.insights, rfl⟩
  | ok d3 => exact ⟨_, rfl⟩

theorem displayInsights_congr (h : Host) (a b : JVal) (s : Page)
    (e1 : slotText h a "insight_1" "title" = slotText h b "insight_1" "title")
    (e2 : slotText h a "insight_1" "description" = slotText h b "insight_1" "description")
    (e3 : slotText h a "insight_2" "title" = slotText h b "insight_2" "title")
    (e4 : slotText h a "insight_2" "description" = slotText h b "insight_2" "description")
    (e5 : slotText h a "insight_3" "title" = slotText h b "insight_3" "title")
    (e6 : slotText h a "insight_3" "description" = slotText h b "insight_3" "description") :
    (displayInsights h a s).page.insights = (displayInsights h b s).page.insights ∧
    (displayInsights h a s).threw = (displayInsights h b s).threw := by
  unfold displayInsights
  simp only [run_bind, run_emit, e1, e2, e3, e4, e5, e6]
  cases slotText h b "insight_1" "title" with
  | error e => exact ⟨rfl, rfl⟩
  | ok t1 =>
  cases slotText h b "insight_1" "description" with
  | error e => exact ⟨rfl, rfl⟩
  | ok d1 =>
  cases slotText h b "insight_2" "title" with
  | error e => exact ⟨rfl, rfl⟩
  | ok t2 =>
  cases slotText h b "insight_2" "description" with
  | error e => exact ⟨rfl, rfl⟩
  | ok d2 =>
  cases slotText h b "insight_3" "title" with
  | error e => exact ⟨rfl, rfl⟩
  | ok t3 =>
  cases slotText h b "insight_3" "description" with
  | error e => exact ⟨rfl, rfl⟩
  | ok d3 => exact ⟨rfl, rfl⟩

/-- C9: `displayInsights` reads only the title and description of `insight_1`,
`insight_2` and `insight_3`.  Two inputs that agree on these six values give the
same markup in the insights panel and end the same way; when the six values are
strings the call completes normally and the markup holds them with the three
fixed finding lines, whatever else the input holds; the call does not fail on
the value of `getFallbackInsights()`; and in every case nothing but the
insights panel changes: `this.charts`, the live charts, the summary cards, the
container and the listeners are as before. -/
theorem C9_displayInsights_reads_six_values (h : Host) (a b : JVal) (s : Page)
    (t1 d1 t2 d2 t3 d3 : String)
    (hagree : ∀ slot ∈ ["insight_1", "insight_2", "insight_3"],
      ∀ field ∈ ["title", "description"], slotValue a slot field = slotValue b slot field)
    (ht1 : slotValue a "insight_1" "title" = .ok (.str t1))
    (hd1 : slotValue a "insight_1" "description" = .ok (.str d1))
    (ht2 : slotValue a "insight_2" "title" = .ok (.str t2))
    (hd2 : slotValue a "insight_2" "description" = .ok (.str d2))
    (ht3 : slotValue a "insight_3" "title" = .ok (.str t3))
    (hd3 : slotValue a "insight_3" "description" = .ok (.str d3)) :
    (displayInsights h a s).page.insights = (displayInsights h b s).page.insights ∧
    (displayInsights h a s).threw = (displayInsights h b s).threw ∧
    displayInsights h a s = .normal ()
      { s with
        insights := insightsMarkup t1 d1 t2 d2 t3 d3
        trace := s.trace ++ [.displayInsights a] } ∧
    (displayInsights h getFallbackInsights s).threw = false ∧
    (∀ (v : JVal) (p : Page),
      (displayInsights h v p).page.charts = p.charts ∧
      (displayInsights h v p).page.live = p.live ∧
      (displayInsights h v p).page.totalTrips = p.totalTrips ∧
      (displayInsights h v p).page.avgFare = p.avgFare ∧
      (displayInsights h v p).page.avgDistance = p.avgDistance ∧
      (displayInsights h v p).page.avgSpeed = p.avgSpeed ∧
      (displayInsights h v p).page.container = p.container ∧
      (displayInsights h v p).page.keydownListeners = p.keydownListeners) := by
  have hst : ∀ slot ∈ ["insight_1", "insight_2", "insight_3"],
      ∀ field ∈ ["title", "description"], slotText h a slot field = slotText h b slot field := by
    intro slot hs field hf
    rw [slotText_eq, slotText_eq, hagree slot hs field hf]
  have hc := displayInsights_congr h a b s
    (hst _ (by simp) _ (by simp)) (hst _ (by simp) _ (by simp)) (hst _ (by simp) _ (by simp))
    (hst _ (by simp) _ (by simp)) (hst _ (by simp) _ (by simp)) (hst _ (by simp) _ (by simp))
  refine ⟨hc.1, hc.2, ?_, ?_, ?_⟩
  · simp [displayInsights, slotText_eq, ht1, hd1, ht2, hd2, ht3, hd3, Except.bind, toStr]
  · rw [run_displayInsights_fallback]; rfl
  · intro v p
    obtain ⟨panel, hp⟩ := displayInsights_frame h v p
    rw [hp]
    exact ⟨rfl, rfl, rfl, rfl, rfl, rfl, rfl, rfl⟩

set_option maxRecDepth 100000 in
theorem C9_displayInsights_reads_six_values_witness :
    (displayInsights sampleHost sampleInsights blankPage).page.insights
      = (displayInsights sampleHost getFallbackInsights blankPage).page.insights ∧
    (displayInsights sampleHost sampleInsights blankPage).page.insights = fallbackPanel :=
  have hw := C9_displayInsights_reads_six_values sampleHost sampleInsights getFallbackInsights
    blankPage "Speed vs Fare Relationship"
    "Analysis of how trip speed correlates with fare amounts"
    "Distance Category Analysis"
    "How trip distance categories affect passenger counts and fares"
    "Time-based Pricing Patterns"
    "Fare variations across different times of day"
    (by
      intro slot hs field hf
      simp only [List.mem_cons, List.mem_singleton, List.not_mem_nil, or_false] at hs hf
      rcases hs with rfl | rfl | rfl <;> rcases hf with rfl | rfl <;> rfl)
    (by rfl) (by rfl) (by rfl) (by rfl) (by rfl) (by rfl)
  ⟨hw.1, by rw [hw.2.2.1]; rfl⟩

/-! ## One live chart per surface -/

theorem run_destroyIfPresent_fields (o : Option ChartInstance) (s : Page) :
    ∃ s1, destroyIfPresent o s = .normal () s1 ∧ s1.charts = s.charts ∧
      s1.nextChartId = s.nextChartId ∧ s1.live = liveAfterDestroy o s.live := by
  cases o with
  | none => exact ⟨s, rfl, rfl, rfl, rfl⟩
  | some c => exact ⟨_, rfl, rfl, rfl, rfl⟩

theorem stepShape_fare (v : JVal) (s : Page) : StepShape .fare s (createFareChart v s) := by
  obtain ⟨s1, h1, hc, hn, hl⟩ := run_destroyIfPresent_fields s.charts.fareChart s
  right
  refine ⟨?_, ⟨"bar", some ["1st Highest", "2nd", "3rd", "4th", "5th"],
    some "Fare Amount ($)", v, "Top 5 Highest Fares (Custom Algorithm)"⟩, ?_, ?_, ?_⟩
  · simp [createFareChart, h1, newChart, Completion.threw]
  · simp [createFareChart, h1, newChart, Completion.page, hn]
  · simp [createFareChart, h1, newChart, Completion.page, hn, hl, Charts.entry, Surface.canvas]
  · simp [createFareChart, h1, newChart, Completion.page, hn, hc, Charts.store, Surface.canvas]

theorem stepShape_time (v : JVal) (s : Page) :
    StepShape .time s (createTimeAnalysisChart v s) := by
  obtain ⟨s1, h1, hc, hn, hl⟩ := run_destroyIfPresent_fields s.charts.timeChart s
  cases hk : objectKeys v with
  | error e =>
      left
      simp [createTimeAnalysisChart, hk, Completion.threw, Completion.page]
  | ok cats =>
      cases hm : mapThrowing
          (fun cat => (getProp v cat).bind fun e => getProp e "average_fare") cats with
      | error e =>
          left
          simp [createTimeAnalysisChart, hk, hm, Completion.threw, Completion.page]
      | ok avgs =>
          right
          refine ⟨?_, ⟨"line", some cats, some "Average Fare ($)", .arr avgs,
            "Fare Patterns by Time of Day"⟩, ?_, ?_, ?_⟩
          · simp [createTimeAnalysisChart, hk, hm, h1, newChart, Completion.threw]
          · simp [createTimeAnalysisChart, hk, hm, h1, newChart, Completion.page, hn]
          · simp [createTimeAnalysisChart, hk, hm, h1, newChart, Completion.page, hn, hl,
              Charts.entry, Surface.canvas]
          · simp [createTimeAnalysisChart, hk, hm, h1, newChart, Completion.page, hn, hc,
              Charts.store, Surface.canvas]

theorem stepShape_distance (v : JVal) (s : Page) :
    StepShape .distance s (createDistanceChart v s) := by
  obtain ⟨s1, h1, hc, hn, hl⟩ := run_destroyIfPresent_fields s.charts.distanceChart s
  cases hk : objectKeys v with
  | error e =>
      left
      simp [createDistanceChart, hk, Completion.threw, Completion.page]
  | ok labels =>
      cases hm : mapThrowing
          (fun label => (getProp v label).bind fun e => getProp e "count") labels with
      | error e =>
          left
          simp [createDistanceChart, hk, hm, Completion.threw, Completion.page]
      | ok counts =>
          right
          refine ⟨?_, ⟨"doughnut", some labels, none, .arr counts,
            "Trip Distribution by Distance"⟩, ?_, ?_, ?_⟩
          · simp [createDistanceChart, hk, hm, h1, newChart, Completion.threw]
          · simp [createDistanceChart, hk, hm, h1, newChart, Completion.page, hn]
          · simp [createDistanceChart, hk, hm, h1, newChart, Completion.page, hn, hl,
              Charts.entry, Surface.canvas]
          · simp [createDistanceChart, hk, hm, h1, newChart, Completion.page, hn, hc,
              Charts.store, Surface.canvas]

theorem stepShape_scatter (v : JVal) (s : Page) :
    StepShape .scatter s (createScatterChart v s) := by
  obtain ⟨s1, h1, hc, hn, hl⟩ := run_destroyIfPresent_fields s.charts.scatterChart s
  cases hp : scatterPoints v with
  | error e =>
      left
      refine ⟨?_, ?_, ?_, Or.inr ?_⟩
      · simp [createScatterChart, h1, hp, Completion.threw]
      · simp [createScatterChart, h1, hp, Completion.page, hc]
      · simp [createScatterChart, h1, hp, Completion.page, hn]
      · simp [createScatterChart, h1, hp, Completion.page, hl, Charts.entry]
  | ok points =>
      right
      refine ⟨?_, ⟨"scatter", none, some "Speed vs Fare", .arr points,
        "Speed vs Fare Correlation"⟩, ?_, ?_, ?_⟩
      · simp [createScatterChart, hp, h1, newChart, Completion.threw]
      · simp [createScatterChart, hp, h1, newChart, Completion.page, hn]
      · simp [createScatterChart, hp, h1, newChart, Completion.page, hn, hl,
          Charts.entry, Surface.canvas]
      · simp [createScatterChart, hp, h1, newChart, Completion.page, hn, hc,
          Charts.store, Surface.canvas]

theorem stepShape_run (c : ChartCall) (s : Page) : StepShape c.surface s (c.run s) := by
  cases c with
  | fare v => exact stepShape_fare v s
  | time v => exact stepShape_time v s
  | distance v => exact stepShape_distance v s
  | scatter v => exact stepShape_scatter v s

theorem canvas_injective (a b : Surface) (h : a.canvas = b.canvas) : a = b := by
  cases a <;> cases b <;> first | rfl | (exact absurd h (by decide))

theorem entry_store_same (c : Charts) (surface : Surface) (inst : ChartInstance) :
    (c.store surface inst).entry surface = some inst := by
  cases surface <;> rfl

theorem entry_store_other (c : Charts) (a b : Surface) (inst : ChartInstance) (h : b ≠ a) :
    (c.store a inst).entry b = c.entry b := by
  cases a <;> cases b <;> first | rfl | exact absurd rfl h

theorem liveAfterDestroy_sublist (o : Option ChartInstance) (live : List ChartInstance) :
    (liveAfterDestroy o live).Sublist live := by
  cases o with
  | none => exact List.Sublist.refl _
  | some c => exact List.filter_sublist _

theorem chartsInv_of_sublist (s t : Page) (hs : ChartsInv s) (hc : t.charts = s.charts)
    (hn : t.nextChartId = s.nextChartId) (hl : t.live.Sublist s.live) : ChartsInv t := by
  obtain ⟨h1, h2, h3⟩ := hs
  refine ⟨?_, h2.sublist hl, ?_⟩
  · intro c hcm
    rw [hn]
    exact h1 c (hl.subset hcm)
  · intro c hcm
    rw [hc]
    exact h3 c (hl.subset hcm)

theorem chartsInv_step (surface : Surface) (s : Page) (r : Completion Unit)
    (hs : ChartsInv s) (hr : StepShape surface s r) : ChartsInv r.page := by
  rcases hr with ⟨_, hc, hn, hl⟩ | ⟨_, cfg, hn, hl, hc⟩
  · refine chartsInv_of_sublist s r.page hs hc hn ?_
    rcases hl with hl | hl
    · rw [hl]
    · rw [hl]; exact liveAfterDestroy_sublist _ _
  · obtain ⟨h1, h2, h3⟩ := hs
    have hsub := liveAfterDestroy_sublist (s.charts.entry surface) s.live
    refine ⟨?_, ?_, ?_⟩
    · intro c hcm
      rw [hl] at hcm
      rw [hn]
      rcases List.mem_append.mp hcm with hm | hm
      · exact Nat.lt_succ_of_lt (h1 c (hsub.subset hm))
      · simp only [List.mem_singleton] at hm
        rw [hm]
        exact Nat.lt_succ_self _
    · rw [hl, List.pairwise_append]
      refine ⟨h2.sublist hsub, List.pairwise_singleton _ _, ?_⟩
      intro a ha b hb
      simp only [List.mem_singleton] at hb
      rw [hb]
      exact Nat.ne_of_lt (h1 a (hsub.subset ha))
    · intro c hcm
      rw [hl] at hcm
      rw [hc]
      rcases List.mem_append.mp hcm with hm | hm
      · obtain ⟨sf, hcan, hent⟩ := h3 c (hsub.subset hm)
        refine ⟨sf, hcan, ?_⟩
        by_cases hsf : sf = surface
        · subst hsf
          rw [hent] at hm
          simp [liveAfterDestroy] at hm
        · rw [entry_store_other _ _ _ _ hsf]
          exact hent
      · simp only [List.mem_singleton] at hm
        rw [hm]
        exact ⟨surface, rfl, entry_store_same _ _ _⟩

theorem chartsInv_runCalls (calls : List ChartCall) (s : Page) (hs : ChartsInv s) :
    ChartsInv (runCalls calls s) := by
  induction calls generalizing s with
  | nil => exact hs
  | cons c rest ih => exact ih _ (chartsInv_step c.surface s (c.run s) hs (stepShape_run c s))

theorem liveOn_of_inv (s : Page) (hs : ChartsInv s) (surface : Surface) :
    (liveOn s surface).length ≤ 1 ∧ ∀ c ∈ liveOn s surface, s.charts.entry surface = some c := by
  obtain ⟨_, h2, h3⟩ := hs
  have hmem : ∀ c ∈ liveOn s surface, s.charts.entry surface = some c := by
    intro c hc
    simp only [liveOn, List.mem_filter, beq_iff_eq] at hc
    obtain ⟨sf, hcan, hent⟩ := h3 c hc.1
    have : sf = surface := canvas_injective _ _ (hcan.symm.trans hc.2)
    rw [← this]
    exact hent
  refine ⟨?_, hmem⟩
  have hp : (liveOn s surface).Pairwise (fun a b => a.id ≠ b.id) :=
    h2.sublist (List.filter_sublist _)
  match hlo : liveOn s surface with
  | [] => simp
  | [_] => simp
  | a :: b :: rest =>
      rw [hlo] at hp hmem
      have ha := hmem a (by simp)
      have hb := hmem b (by simp)
      rw [ha] at hb
      have hab : a = b := Option.some.inj hb
      have hne : a.id ≠ b.id := (List.pairwise_cons.mp hp).1 b (by simp)
      exact absurd (congrArg ChartInstance.id hab) hne

theorem liveOn_after_render (c : ChartCall) (s : Page) (hs : ChartsInv s)
    (hok : (c.run s).threw = false) : (liveOn (c.run s).page c.surface).length = 1 := by
  have hshape := stepShape_run c s
  have hinv := chartsInv_step c.surface s (c.run s) hs hshape
  have hle := (liveOn_of_inv _ hinv c.surface).1
  rcases hshape with ⟨ht, _⟩ | ⟨_, cfg, _, hl, _⟩
  · rw [hok] at ht; cases ht
  · have hmem : (⟨s.nextChartId, c.surface.canvas, cfg⟩ : ChartInstance)
        ∈ liveOn (c.run s).page c.surface := by
      simp [liveOn, hl]
    have hpos : 0 < (liveOn (c.run s).page c.surface).length := List.length_pos_of_mem hmem
    omega

theorem getProp_ok_of_present (e : JVal) (field : String) (he : nullish e = false) :
    ∃ x, getProp e field = .ok x := by
  cases e <;> simp [nullish] at he <;> exact ⟨_, rfl⟩

theorem lookupProp_of_key (es : List (String × JVal)) (k : String)
    (hk : k ∈ es.map Prod.fst) : ∃ e ∈ es, lookupProp k es = some e.2 := by
  induction es with
  | nil => simp at hk
  | cons x rest ih =>
      obtain ⟨k1, v1⟩ := x
      by_cases hkk : k1 = k
      · exact ⟨(k1, v1), by simp, by simp [lookupProp, hkk]⟩
      · have hk2 : k ∈ rest.map Prod.fst := by
          simp only [List.map_cons, List.mem_cons] at hk
          rcases hk with h | h
          · exact absurd h.symm hkk
          · exact h
        obtain ⟨e, he, hl⟩ := ih hk2
        exact ⟨e, List.mem_cons_of_mem _ he, by simp [lookupProp, hkk, hl]⟩

theorem mapThrowing_ok {α β : Type} (f : α → Except Thrown β) (l : List α)
    (hf : ∀ x ∈ l, ∃ y, f x = .ok y) : ∃ ys, mapThrowing f l = .ok ys := by
  induction l with
  | nil => exact ⟨[], rfl⟩
  | cons x rest ih =>
      obtain ⟨y, hy⟩ := hf x (by simp)
      obtain ⟨ys, hys⟩ := ih fun z hz => hf z (List.mem_cons_of_mem _ hz)
      exact ⟨y :: ys, by simp [mapThrowing, hy, hys]⟩

theorem entries_read_ok (v : JVal) (field : String) (hv : entriesPresent v = true) :
    ∃ keys vals, objectKeys v = .ok keys ∧
      mapThrowing (fun k => (getProp v k).bind fun e => getProp e field) keys = .ok vals := by
  unfold entriesPresent at hv
  cases ho : ownEntries v with
  | error e => rw [ho] at hv; cases hv
  | ok es =>
      rw [ho] at hv
      simp only [List.all_eq_true, Bool.not_eq_eq_eq_not, Bool.not_true] at hv
      have hkeys : objectKeys v = .ok (es.map Prod.fst) := by
        simp [objectKeys, ho, Except.map]
      obtain ⟨vals, hvals⟩ := mapThrowing_ok
        (fun k => (getProp v k).bind fun e => getProp e field) (es.map Prod.fst)
        (by
          intro k hk
          obtain ⟨e, he, hl⟩ := lookupProp_of_key es k hk
          obtain ⟨x, hx⟩ := getProp_ok_of_present e.2 field (hv e he)
          have hg : getProp v k = .ok e.2 := by
            simp [getProp, ho, Except.map, hl]
          exact ⟨x, by simp only [hg, Except.bind, hx]⟩)
      exact ⟨_, vals, hkeys, hvals⟩

theorem scatterPoints_ok (items : List JVal)
    (hi : (items.all fun i => !nullish i) = true) :
    ∃ points, scatterPoints (.arr items) = .ok points := by
  simp only [List.all_eq_true, Bool.not_eq_eq_eq_not, Bool.not_true] at hi
  unfold scatterPoints
  refine mapThrowing_ok _ items ?_
  intro item hitem
  obtain ⟨x, hx⟩ := getProp_ok_of_present item "speed" (hi item hitem)
  obtain ⟨y, hy⟩ := getProp_ok_of_present item "fare" (hi item hitem)
  exact ⟨JVal.obj [("x", x), ("y", y)], by simp only [hx, hy, Except.bind]⟩

theorem run_of_renders (c : ChartCall) (s : Page) (hr : c.renders = true) :
    (c.run s).threw = false := by
  cases c with
  | fare v =>
      obtain ⟨s1, h1⟩ := createFareChart_normal v s
      simp [ChartCall.run, h1, Completion.threw]
  | time v =>
      obtain ⟨keys, vals, hk, hm⟩ := entries_read_ok v "average_fare" hr
      obtain ⟨s1, h1⟩ := run_destroyIfPresent s.charts.timeChart s
      simp [ChartCall.run, createTimeAnalysisChart, hk, hm, h1, newChart, Completion.threw]
  | distance v =>
      obtain ⟨keys, vals, hk, hm⟩ := entries_read_ok v "count" hr
      obtain ⟨s1, h1⟩ := run_destroyIfPresent s.charts.distanceChart s
      simp [ChartCall.run, createDistanceChart, hk, hm, h1, newChart, Completion.threw]
  | scatter v =>
      cases v <;> simp [ChartCall.renders] at hr
      next items =>
        obtain ⟨points, hp⟩ := scatterPoints_ok items (by simpa using hr)
        obtain ⟨s1, h1⟩ := run_destroyIfPresent s.charts.scatterChart s
        simp [ChartCall.run, createScatterChart, hp, h1, newChart, Completion.threw]

theorem createDistanceChart_thrown (v : JVal) (s : Page)
    (ht : (createDistanceChart v s).threw = true) :
    (createDistanceChart v s).page = s := by
  obtain ⟨s1, h1⟩ := run_destroyIfPresent s.charts.distanceChart s
  unfold createDistanceChart at ht ⊢
  cases hk : objectKeys v with
  | error e => simp [hk, Completion.page]
  | ok labels =>
      cases hm : mapThrowing
          (fun label => (getProp v label).bind fun e => getProp e "count") labels with
      | error e => simp [hk, hm, Completion.page]
      | ok counts => simp [hk, hm, h1, newChart, Completion.threw] at ht

theorem run_thrown_keeps_page (c : ChartCall) (s : Page) (hc : c.surface ≠ .scatter)
    (ht : (c.run s).threw = true) : (c.run s).page = s := by
  cases c with
  | fare v =>
      obtain ⟨s1, h1⟩ := createFareChart_normal v s
      simp [ChartCall.run, h1, Completion.threw] at ht
  | time v => exact createTimeAnalysisChart_thrown v s ht
  | distance v => exact createDistanceChart_thrown v s ht
  | scatter v => exact absurd rfl hc

set_option maxRecDepth 100000 in
/-- C4 as stated fails: two calls in succession on one surface do not always
leave exactly one live instance.  After `createScatterChart` on an array of
points, a second call on an object throws once the stored chart is destroyed: no
live chart on the scatter surface, and an entry in `this.charts` that is not
live.  And two calls of `createTimeAnalysisChart` on `undefined` from the blank
page both throw and leave no live chart on the time surface. -/
theorem C4_counterexample :
    ((ChartCall.scatter samplePoints).run blankPage).threw = false ∧
    (liveOn ((ChartCall.scatter samplePoints).run blankPage).page .scatter).length = 1 ∧
    ((ChartCall.scatter (.obj [])).run
      ((ChartCall.scatter samplePoints).run blankPage).page).threw = true ∧
    (liveOn (runCalls [.scatter samplePoints, .scatter (.obj [])] blankPage)
      .scatter).length = 0 ∧
    (runCalls [.scatter samplePoints, .scatter (.obj [])]
      blankPage).charts.scatterChart.isSome = true ∧
    (liveOn (runCalls [.time .undefined, .time .undefined] blankPage) .time).length = 0 := by
  refine ⟨by rfl, by rfl, by rfl, by rfl, by rfl, by rfl⟩

/-- C4, as the code has it: from a page with an empty `this.charts` and no live
chart, after any sequence of calls of `createFareChart`,
`createTimeAnalysisChart`, `createDistanceChart` and `createScatterChart` with
any arguments (calls that throw included), every surface has at most one chart
instance created and not destroyed, and such an instance is the entry of
`this.charts` for that surface.  A call whose argument can be read (any value
for the fare chart, entries other than `undefined` and `null` for the time and
distance charts, an array of such items for the scatter chart) completes
normally, and two further calls on one surface, the second of which completes
normally, leave exactly one live instance on it.  A call on the fare, time or
distance surface that throws leaves the page as it was. -/
theorem C4_one_live_chart_per_surface (calls : List ChartCall) (s0 : Page)
    (_hcharts : s0.charts = ⟨none, none, none, none⟩) (hlive : s0.live = []) :
    (∀ surface : Surface,
      (liveOn (runCalls calls s0) surface).length ≤ 1 ∧
      ∀ c ∈ liveOn (runCalls calls s0) surface,
        (runCalls calls s0).charts.entry surface = some c) ∧
    (∀ first second : ChartCall, first.surface = second.surface →
      (second.run (first.run (runCalls calls s0)).page).threw = false →
      (liveOn (second.run (first.run (runCalls calls s0)).page).page second.surface).length
        = 1) ∧
    (∀ (c : ChartCall) (p : Page), c.renders = true → (c.run p).threw = false) ∧
    (∀ first second : ChartCall, first.surface = second.surface → second.renders = true →
      (liveOn (second.run (first.run (runCalls calls s0)).page).page second.surface).length
        = 1) ∧
    (∀ (c : ChartCall) (p : Page), c.surface ≠ .scatter → (c.run p).threw = true →
      (c.run p).page = p) := by
  have h0 : ChartsInv s0 := by
    refine ⟨?_, ?_, ?_⟩ <;> simp [hlive]
  have hinv := chartsInv_runCalls calls s0 h0
  have hone : ∀ first second : ChartCall,
      (second.run (first.run (runCalls calls s0)).page).threw = false →
      (liveOn (second.run (first.run (runCalls calls s0)).page).page second.surface).length
        = 1 := by
    intro first second hok
    have h1 := chartsInv_step first.surface _ (first.run (runCalls calls s0)) hinv
      (stepShape_run first _)
    exact liveOn_after_render second _ h1 hok
  refine ⟨fun surface => liveOn_of_inv _ hinv surface, fun first second _ hok => hone first second hok,
    fun c p hr => run_of_renders c p hr,
    fun first second _ hr => hone first second (run_of_renders second _ hr),
    fun c p hc ht => run_thrown_keeps_page c p hc ht⟩

set_option maxRecDepth 100000 in
theorem C4_one_live_chart_per_surface_witness :
    (liveOn (runCalls [.fare (.arr [.int 45]), .scatter .undefined, .fare (.arr [.int 40])]
      blankPage) .fare).length ≤ 1 ∧
    (liveOn ((ChartCall.fare (.arr [.int 45])).run
      ((ChartCall.fare (.arr [.int 40])).run (runCalls [] blankPage)).page).page
      (ChartCall.fare (.arr [.int 45])).surface).length = 1 ∧
    ((ChartCall.scatter samplePoints).run blankPage).threw = false ∧
    ((ChartCall.time sampleTimeData).run blankPage).threw = false ∧
    (liveOn ((ChartCall.scatter samplePoints).run
      ((ChartCall.scatter samplePoints).run
        (runCalls [.time sampleTimeData, .distance (.obj sampleDistanceData)]
          blankPage)).page).page
      (ChartCall.scatter samplePoints).surface).length = 1 :=
  ⟨((C4_one_live_chart_per_surface
      [.fare (.arr [.int 45]), .scatter .undefined, .fare (.arr [.int 40])] blankPage rfl rfl).1
      .fare).1,
    (C4_one_live_chart_per_surface [] blankPage rfl rfl).2.1
      (.fare (.arr [.int 40])) (.fare (.arr [.int 45])) rfl (by rfl),
    (C4_one_live_chart_per_surface [] blankPage rfl rfl).2.2.1
      (.scatter samplePoints) blankPage (by rfl),
    (C4_one_live_chart_per_surface [] blankPage rfl rfl).2.2.1
      (.time sampleTimeData) blankPage (by rfl),
    (C4_one_live_chart_per_surface
      [.time sampleTimeData, .distance (.obj sampleDistanceData)] blankPage rfl rfl).2.2.2.1
      (.scatter samplePoints) (.scatter samplePoints) rfl (by rfl)⟩

/-! ## Listeners and key presses -/

theorem countP_initStart_quiet (allowed : Event → Bool) (evs : List Event)
    (hq : ∀ e ∈ evs, allowed e = true)
    (ha : ∀ e, allowed e = true → e.isInitStart = false) :
    evs.countP Event.isInitStart = 0 := by
  rw [List.countP_eq_zero]
  intro e he
  simp [ha e (hq e he)]

theorem isInitStart_of_isSummary (e : Event) (h : e.isSummary = true) :
    e.isInitStart = false := by
  cases e <;> simp_all [Event.isSummary, Event.isInitStart]

theorem isInitStart_of_isInsights (e : Event) (h : e.isInsights = true) :
    e.isInitStart = false := by
  cases e <;> simp_all [Event.isInsights, Event.isInitStart]

theorem init_counts (h : Host) (net : Net) (s : Page) :
    (init h net s).page.keydownListeners
      = s.keydownListeners + (if summaryFails h net.summary = true then 0 else 1) ∧
    initRuns (init h net s).page = initRuns s + 1 := by
  cases hf : summaryFails h net.summary with
  | true =>
      obtain ⟨s1, _, _, hk, ⟨evs, htr, hevs⟩, hinit⟩ := init_page_of_summary_fails h net s hf
      rw [hinit]
      refine ⟨by simpa [Completion.page] using hk, ?_⟩
      have := countP_initStart_quiet _ evs hevs isInitStart_of_isSummary
      simp [initRuns, Completion.page, htr, List.countP_append, List.countP_cons,
        Event.isInitStart, this]
  | false =>
      have hthrew := threw_loadSummaryData h net.summary { s with trace := s.trace ++ [.initStart] }
      rw [hf] at hthrew
      have hq := quiet_loadSummaryData h net.summary { s with trace := s.trace ++ [.initStart] }
      cases hl : loadSummaryData h net.summary { s with trace := s.trace ++ [.initStart] } with
      | thrown t => rw [hl] at hthrew; simp [Completion.threw] at hthrew
      | normal u s1 =>
          rw [hl] at hq
          obtain ⟨_, hk1, evs1, htr1, hevs1⟩ := hq
          obtain ⟨s2, hi⟩ := loadInsights_normal h net.insights s1
          have hq2 := quiet_loadInsights h net.insights s1
          rw [hi] at hq2
          obtain ⟨_, hk2, evs2, htr2, hevs2⟩ := hq2
          rw [init_of_summary_normal h net s s1 s2 hl hi]
          simp only [Completion.page] at hk1 htr1 hk2 htr2
          refine ⟨by simp [Completion.page, hk2, hk1], ?_⟩
          have c1 := countP_initStart_quiet _ evs1 hevs1 isInitStart_of_isSummary
          have c2 := countP_initStart_quiet _ evs2 hevs2 isInitStart_of_isInsights
          simp [initRuns, Completion.page, htr2, htr1, List.countP_append, List.countP_cons,
            Event.isInitStart, c1, c2]

theorem foldl_init_counts (h : Host) (nets : Nat → Net) (l : List Nat) (s : Page)
    (hok : ∀ i, summaryFails h (nets i).summary = false) :
    (l.foldl (fun acc i => (init h (nets i) acc).page) s).keydownListeners
      = s.keydownListeners + l.length ∧
    initRuns (l.foldl (fun acc i => (init h (nets i) acc).page) s) = initRuns s + l.length := by
  induction l generalizing s with
  | nil => exact ⟨rfl, rfl⟩
  | cons i rest ih =>
      have hc := init_counts h (nets i) s
      rw [hok i] at hc
      have hr := ih (init h (nets i) s).page
      simp only [List.foldl_cons, List.length_cons]
      refine ⟨?_, ?_⟩
      · rw [hr.1, hc.1]; simp; omega
      · rw [hr.2, hc.2]; omega

theorem foldl_init_mono (h : Host) (f : Nat → Page → Prop) [∀ i s, Decidable (f i s)]
    (nets : Nat → Net) (l : List Nat) (s : Page) :
    s.keydownListeners ≤
      (l.foldl (fun acc i => if f i acc then (init h (nets i) acc).page else acc)
        s).keydownListeners := by
  induction l generalizing s with
  | nil => exact Nat.le_refl _
  | cons i rest ih =>
      simp only [List.foldl_cons]
      refine Nat.le_trans ?_ (ih _)
      split
      · rw [(init_counts h (nets i) s).1]; omega
      · exact Nat.le_refl _

theorem keydown_ctrlR_counts (h : Host) (nets : Nat → Net) (s : Page)
    (hok : ∀ i, summaryFails h (nets i).summary = false) :
    (keydown h "r" true nets s).keydownListeners = 2 * s.keydownListeners ∧
    initRuns (keydown h "r" true nets s) = initRuns s + s.keydownListeners := by
  have hf := foldl_init_counts h nets (List.range s.keydownListeners) s hok
  simp only [List.length_range] at hf
  have he : keydown h "r" true nets s
      = (List.range s.keydownListeners).foldl (fun acc i => (init h (nets i) acc).page) s := by
    simp [keydown]
  rw [he]
  exact ⟨by rw [hf.1]; omega, hf.2⟩

/-- C10: a run of `init()` in which `loadSummaryData` does not fail registers one
more keydown listener, and neither a run of `init()` nor a key event removes
one.  Hence, from a page without keydown listener, when no summary load fails
and every press is over before the next, after the page load and `k` presses of
control+r there are `2 ^ k` listeners, and the next press, press `k + 1`, starts
`2 ^ k` runs of `init()`. -/
theorem C10_listeners_double (h : Host) (net0 : Net) (nets : Nat → Nat → Net) (s0 : Page)
    (hnone : s0.keydownListeners = 0)
    (h0 : summaryFails h net0.summary = false)
    (hok : ∀ k i, summaryFails h (nets k i).summary = false) :
    (∀ (net : Net) (s : Page), summaryFails h net.summary = false →
      (init h net s).page.keydownListeners = s.keydownListeners + 1) ∧
    (∀ (net : Net) (s : Page), s.keydownListeners ≤ (init h net s).page.keydownListeners) ∧
    (∀ (key : String) (ctrlKey : Bool) (ns : Nat → Net) (s : Page),
      s.keydownListeners ≤ (keydown h key ctrlKey ns s).keydownListeners) ∧
    ∀ k : Nat,
      (pressesCtrlR h nets k (construct h net0 s0).page).keydownListeners = 2 ^ k ∧
      initRuns (pressesCtrlR h nets (k + 1) (construct h net0 s0).page)
        = initRuns (pressesCtrlR h nets k (construct h net0 s0).page) + 2 ^ k := by
  refine ⟨?_, ?_, ?_, ?_⟩
  · intro net s hs
    rw [(init_counts h net s).1, hs]; simp
  · intro net s
    rw [(init_counts h net s).1]; omega
  · intro key ctrlKey ns s
    unfold keydown
    exact foldl_init_mono h (fun _ _ => key = "r" ∧ ctrlKey = true) ns _ s
  · have hload : (construct h net0 s0).page.keydownListeners = 1 := by
      have hc := (init_counts h net0 { s0 with charts := ⟨none, none, none, none⟩ }).1
      rw [h0] at hc
      have : (construct h net0 s0) = init h net0 { s0 with charts := ⟨none, none, none, none⟩ } := by
        simp [construct]
      rw [this, hc]
      simp [hnone]
    have hpow : ∀ k, (pressesCtrlR h nets k (construct h net0 s0).page).keydownListeners
        = 2 ^ k := by
      intro k
      induction k with
      | zero => simpa [pressesCtrlR] using hload
      | succ k ih =>
          simp only [pressesCtrlR]
          rw [(keydown_ctrlR_counts h (nets k) _ (hok k)).1, ih, pow_succ]
          omega
    intro k
    refine ⟨hpow k, ?_⟩
    simp only [pressesCtrlR]
    rw [(keydown_ctrlR_counts h (nets k) _ (hok k)).2, hpow k]

set_option maxRecDepth 100000 in
theorem C10_listeners_double_witness :
    blankPage.keydownListeners = 0 ∧
    summaryFails sampleHost (.response 200 (some sampleSummary)) = false ∧
    (pressesCtrlR sampleHost
      (fun _ _ => ⟨.response 200 (some sampleSummary), .networkError⟩) 3
      (construct sampleHost ⟨.response 200 (some sampleSummary), .networkError⟩
        blankPage).page).keydownListeners = 2 ^ 3 :=
  have hs : summaryFails sampleHost (.response 200 (some sampleSummary)) = false := by decide
  ⟨rfl, hs,
    ((C10_listeners_double sampleHost ⟨.response 200 (some sampleSummary), .networkError⟩
      (fun _ _ => ⟨.response 200 (some sampleSummary), .networkError⟩) blankPage rfl
      hs (fun _ _ => hs)).2.2.2 3).1⟩

end TaxiDashboard
